import Mathlib

/-!
Verification of the figma-to-rapier2d export pipeline.

This file shallowly embeds the pipeline of the repository in Lean 4:
the polygon math of `src/geometry/transforms.ts` / `src/geometry/polygons.ts`
(signed area, winding normalisation, convexity tests, RDP simplification,
triangulation), the path flattener and contour selection of
`src/geometry/paths.ts`, the entity builders of `src/export/builders.ts`,
the reporter of `src/export/reporter.ts`, and the level scanner with the
pixels-per-unit post-scaling of `src/export/scanner.ts` and its newer
variant (the unnamed module that adds `scaleLevel`).

Modelling conventions:
  * JavaScript numbers are modelled as exact rationals (`ℚ`); floating
    rounding is not modelled, so every "within floating tolerance" clause
    of the specification becomes exact equality over `ℚ`.
  * `Math.sqrt` / `Math.hypot` / trigonometric functions are transcendental
    and therefore not rational; definitions that use them take them as an
    explicit `RealOps` argument.  Theorems quantify over the argument (when
    the property does not depend on it) or instantiate it with `qOps`,
    rational stand-ins that agree with the real functions on every input
    the concrete theorem actually exercises.
  * mutable state (the reporter) and thrown exceptions are modelled by a
    writer/exception result type `Res`: the reporter of the source is
    write-only (`warn` pushes, `bump` increments, nothing reads it), so a
    log that is concatenated by sequencing is a faithful embedding, and
    log entries written before a throw are kept, as in the source.
-/

/-! ## Vec2 and basic polygon math (src/geometry/polygons.ts) -/

/-- A 2d point `[x, y]` of the source, as a pair of rationals. -/
abbrev Vec2 : Type := ℚ × ℚ

/-- The z-component `x1*y2 - x2*y1` of the cross product of two vectors,
one term of the shoelace sum of `areaSigned`. -/
def crossQ (p q : Vec2) : ℚ := p.1 * q.2 - q.1 * p.2

/-- One cyclic left shift: element `i` is paired with element `(i+1) % n`
of the original list, exactly the index pattern of the `areaSigned` loop. -/
def cyc : List Vec2 → List Vec2
  | [] => []
  | a :: t => t ++ [a]

/-- The shoelace sum `Σ (x_i * y_{i+1} - x_{i+1} * y_i)` over cyclic
consecutive pairs, the accumulator `a` of `areaSigned`. -/
def shoelace (poly : List Vec2) : ℚ :=
  (List.zipWith crossQ poly (cyc poly)).sum

/-- Source `areaSigned` (src/geometry/polygons.ts:74): half the shoelace
sum; positive means counter-clockwise in a Y-up frame. -/
def areaSigned (poly : List Vec2) : ℚ := shoelace poly / 2

/-- Source `ensureClockwise` (src/geometry/polygons.ts:84): reverse the
vertex list when the signed area is positive. -/
def ensureClockwise (poly : List Vec2) : List Vec2 :=
  if areaSigned poly > 0 then poly.reverse else poly

/-- Source `ensureCCW` (src/geometry/polygons.ts:88): reverse the vertex
list when the signed area is negative. -/
def ensureCCW (poly : List Vec2) : List Vec2 :=
  if areaSigned poly < 0 then poly.reverse else poly

/-- Source `centroid` (src/geometry/polygons.ts:92): arithmetic mean of the
vertices. -/
def centroid (poly : List Vec2) : Vec2 :=
  ((poly.map Prod.fst).sum / poly.length, (poly.map Prod.snd).sum / poly.length)

/-- Source `centerVertices` (src/geometry/polygons.ts:98): re-express the
vertices relative to the centroid, returning the centroid as the offset. -/
def centerVertices (poly : List Vec2) : Vec2 × List Vec2 :=
  let c := centroid poly
  (c, poly.map (fun p => (p.1 - c.1, p.2 - c.2)))

/-! Shoelace algebra: the consecutive-pairs sum and how both behave under
list reversal.  These culminate in `areaSigned_reverse`. -/

/-- The non-cyclic part of the shoelace sum: cross terms of consecutive
pairs only. -/
def pathSum : List Vec2 → ℚ
  | [] => 0
  | [_] => 0
  | a :: b :: t => crossQ a b + pathSum (b :: t)

theorem crossQ_antisymm (p q : Vec2) : crossQ q p = -crossQ p q := by
  simp only [crossQ]; ring

theorem crossQ_self (p : Vec2) : crossQ p p = 0 := by
  simp only [crossQ]; ring

theorem zip_drop_last (t : List Vec2) (a x : Vec2) :
    (List.zipWith crossQ (a :: t) (t ++ [x])).sum =
      pathSum (a :: t) + crossQ ((a :: t).getLastD a) x := by
  induction t generalizing a with
  | nil => simp [pathSum]
  | cons b s ih =>
      have h1 : (List.zipWith crossQ (a :: b :: s) ((b :: s) ++ [x])).sum =
          crossQ a b + (List.zipWith crossQ (b :: s) (s ++ [x])).sum := by
        simp
      rw [h1, ih b]
      have h2 : ((a :: b :: s : List Vec2)).getLastD a = (b :: s).getLastD b := by
        rw [List.getLastD_eq_getLast?, List.getLastD_eq_getLast?]
        have h0 : ((a :: b :: s : List Vec2)).getLast? = (b :: s).getLast? := by
          simp
        rw [h0]
        cases h3 : ((b :: s : List Vec2)).getLast? with
        | none => simp at h3
        | some y => rfl
      rw [h2, pathSum]
      ring

theorem shoelace_eq_pathSum (a : Vec2) (t : List Vec2) :
    shoelace (a :: t) = pathSum (a :: t) + crossQ ((a :: t).getLastD a) a := by
  have h : cyc (a :: t) = t ++ [a] := rfl
  rw [shoelace, h, zip_drop_last]

theorem pathSum_append_single (xs : List Vec2) (y : Vec2) :
    pathSum (xs ++ [y]) = pathSum xs + crossQ (xs.getLastD y) y := by
  induction xs with
  | nil => simp [pathSum, crossQ_self]
  | cons a t ih =>
      cases t with
      | nil => simp [pathSum]
      | cons b s =>
          have h : ((a :: b :: s) ++ [y] : List Vec2) = a :: ((b :: s) ++ [y]) := rfl
          rw [h]
          have hcons : pathSum (a :: ((b :: s) ++ [y])) =
              crossQ a b + pathSum ((b :: s) ++ [y]) := rfl
          rw [hcons, ih]
          have h3 : ((a :: b :: s : List Vec2)).getLastD y = (b :: s).getLastD y := by
            simp [List.getLastD_eq_getLast?]
          rw [h3, pathSum]
          ring

theorem getLastD_reverse (l : List Vec2) (d : Vec2) :
    l.reverse.getLastD d = l.headD d := by
  simp [List.getLastD_eq_getLast?, List.headD_eq_head?, List.getLast?_reverse]

theorem headD_reverse (l : List Vec2) (d : Vec2) :
    l.reverse.headD d = l.getLastD d := by
  simp [List.getLastD_eq_getLast?, List.headD_eq_head?, List.head?_reverse]

theorem pathSum_reverse (l : List Vec2) : pathSum l.reverse = -pathSum l := by
  induction l with
  | nil => simp [pathSum]
  | cons a t ih =>
      have hrev : ((a :: t : List Vec2)).reverse = t.reverse ++ [a] := by simp
      rw [hrev, pathSum_append_single, ih, getLastD_reverse]
      cases t with
      | nil => simp [pathSum, crossQ_self]
      | cons b s =>
          have h : pathSum (a :: b :: s) = crossQ a b + pathSum (b :: s) := rfl
          rw [h]
          have hh : ((b :: s : List Vec2)).headD a = b := rfl
          rw [hh, crossQ_antisymm a b]
          ring

theorem shoelace_reverse (l : List Vec2) : shoelace l.reverse = -shoelace l := by
  cases l with
  | nil => simp [shoelace, cyc]
  | cons a t =>
      cases hrev : (a :: t : List Vec2).reverse with
      | nil => simp at hrev
      | cons c s =>
          have h1 : shoelace (c :: s) =
              pathSum (c :: s) + crossQ ((c :: s).getLastD c) c :=
            shoelace_eq_pathSum c s
          have h2 : shoelace (a :: t) =
              pathSum (a :: t) + crossQ ((a :: t).getLastD a) a :=
            shoelace_eq_pathSum a t
          have hps : pathSum (c :: s) = -pathSum (a :: t) := by
            rw [← hrev]; exact pathSum_reverse (a :: t)
          have hlastrev : ((c :: s : List Vec2)).getLastD c = a := by
            have h4 : ((a :: t : List Vec2)).reverse.getLastD c = a := by
              rw [getLastD_reverse]; rfl
            rw [hrev] at h4; exact h4
          have hheadrev : c = (a :: t).getLastD a := by
            have h5 : ((a :: t : List Vec2)).reverse.headD a = (a :: t).getLastD a :=
              headD_reverse (a :: t) a
            rw [hrev] at h5
            exact h5.symm ▸ rfl
          rw [h1, hps, hlastrev, h2, ← hheadrev, crossQ_antisymm c a]
          ring

theorem areaSigned_reverse (l : List Vec2) : areaSigned l.reverse = -areaSigned l := by
  simp [areaSigned, shoelace_reverse]; ring

theorem ensureClockwise_area_nonpos (p : List Vec2) :
    areaSigned (ensureClockwise p) ≤ 0 := by
  by_cases h : areaSigned p > 0
  · simp [ensureClockwise, h, areaSigned_reverse]
    linarith
  · simp [ensureClockwise, h]
    linarith [not_lt.mp h]

theorem ensureCCW_area_nonneg (p : List Vec2) :
    0 ≤ areaSigned (ensureCCW p) := by
  by_cases h : areaSigned p < 0
  · simp [ensureCCW, h, areaSigned_reverse]
    linarith
  · simp [ensureCCW, h]
    linarith [not_lt.mp h]

theorem ensureClockwise_of_nonpos (p : List Vec2) (h : areaSigned p ≤ 0) :
    ensureClockwise p = p := by
  simp [ensureClockwise]
  intro hc
  linarith

theorem ensureCCW_of_nonneg (p : List Vec2) (h : 0 ≤ areaSigned p) :
    ensureCCW p = p := by
  simp [ensureCCW]
  intro hc
  linarith

/-- C7.  Winding invariant of `ensureClockwise` / `ensureCCW`
(src/geometry/transforms.ts lines 74-90, spec §8 "Winding invariant"):
for every polygon `P`, `areaSigned (ensureClockwise P) ≤ 0` and
`areaSigned (ensureCCW P) ≥ 0`, and both operations are idempotent. -/
theorem C7_winding_invariant (P : List Vec2) :
    areaSigned (ensureClockwise P) ≤ 0 ∧
    0 ≤ areaSigned (ensureCCW P) ∧
    ensureClockwise (ensureClockwise P) = ensureClockwise P ∧
    ensureCCW (ensureCCW P) = ensureCCW P := by
  refine ⟨ensureClockwise_area_nonpos P, ensureCCW_area_nonneg P, ?_, ?_⟩
  · exact ensureClockwise_of_nonpos _ (ensureClockwise_area_nonpos P)
  · exact ensureCCW_of_nonneg _ (ensureCCW_area_nonneg P)

/-! ## Convexity tests (src/geometry/transforms.ts isConvex,
src/export/builders.ts isConvexSafe) -/

/-- JavaScript `Math.abs`. -/
def absQ (q : ℚ) : ℚ := if q < 0 then -q else q

/-- JavaScript `Math.sign`: 1, -1 or 0. -/
def sgnQ (q : ℚ) : Int := if 0 < q then 1 else if q < 0 then -1 else 0

/-- The cross product `z` computed from the consecutive vertex triple at
index `i` (indices wrap modulo the length), shared by both convexity
loops. -/
def crossTriple (v : List Vec2) (i : ℕ) : ℚ :=
  let p0 := v.getD (i % v.length) ((0 : ℚ), (0 : ℚ))
  let p1 := v.getD ((i + 1) % v.length) ((0 : ℚ), (0 : ℚ))
  let p2 := v.getD ((i + 2) % v.length) ((0 : ℚ), (0 : ℚ))
  (p1.1 - p0.1) * (p2.2 - p1.2) - (p1.2 - p0.2) * (p2.1 - p1.1)

/-- All cross products of the loop, in loop order `i = 0 .. n-1`. -/
def crossList (v : List Vec2) : List ℚ :=
  (List.range v.length).map (crossTriple v)

/-- The shared shape of both convexity loops: walk the cross products,
skip the ones `keep` rejects, remember the first kept sign in `s`, and
return false on the first kept sign that differs from `s`. -/
def convexScan (keep : ℚ → Bool) : List ℚ → Int → Bool
  | [], _ => true
  | z :: zs, s =>
      if keep z then
        let t := sgnQ z
        if s = 0 then convexScan keep zs t
        else if t ≠ s then false else convexScan keep zs s
      else convexScan keep zs s

/-- Source `isConvex` (src/geometry/transforms.ts:113): processes a cross
product `z` exactly when `z !== 0` (no tolerance). -/
def isConvex (v : List Vec2) : Bool :=
  convexScan (fun z => decide (z ≠ 0)) (crossList v) 0

/-- Source `isConvexSafe` (src/export/builders.ts:202): skips a cross
product `z` when `Math.abs(z) < 1e-6`. -/
def isConvexSafe (v : List Vec2) : Bool :=
  convexScan (fun z => !decide (absQ z < 1 / 1000000)) (crossList v) 0

theorem sgnQ_ne_zero (z : ℚ) (h : z ≠ 0) : sgnQ z ≠ 0 := by
  rcases lt_trichotomy z 0 with hlt | heq | hgt
  · simp [sgnQ, hlt, not_lt.mpr (le_of_lt hlt)]
  · exact absurd heq h
  · simp [sgnQ, hgt]

theorem convexScan_ne (keep : ℚ → Bool) (zs : List ℚ) (s : Int) (hs : s ≠ 0) :
    convexScan keep zs s = true ↔ ∀ z ∈ zs, keep z = true → sgnQ z = s := by
  induction zs with
  | nil => simp [convexScan]
  | cons z zs ih =>
      by_cases hk : keep z = true
      · by_cases ht : sgnQ z = s
        · simp only [convexScan, hk, if_true, if_neg hs]
          rw [if_neg (by simp [ht])]
          rw [ih]
          constructor
          · intro h w hw hkw
            rcases List.mem_cons.mp hw with hw | hw
            · subst hw; exact ht
            · exact h w hw hkw
          · intro h w hw hkw
            exact h w (List.mem_cons_of_mem _ hw) hkw
        · simp only [convexScan, hk, if_true, if_neg hs]
          rw [if_pos (by simp [ht])]
          constructor
          · intro h; exact absurd h (by simp)
          · intro h
            exact absurd (h z (List.mem_cons_self _ _) hk) ht
      · have hk2 : keep z = false := by
          cases h : keep z
          · rfl
          · exact absurd h hk
        simp only [convexScan, hk2, Bool.false_eq_true, if_false]
        rw [ih]
        constructor
        · intro h w hw hkw
          rcases List.mem_cons.mp hw with hw | hw
          · subst hw; exact absurd hkw hk
          · exact h w hw hkw
        · intro h w hw hkw
          exact h w (List.mem_cons_of_mem _ hw) hkw

theorem convexScan_zero (keep : ℚ → Bool) (zs : List ℚ)
    (hk : ∀ z, keep z = true → sgnQ z ≠ 0) :
    convexScan keep zs 0 = true ↔
      ∀ a ∈ zs, ∀ b ∈ zs, keep a = true → keep b = true → sgnQ a = sgnQ b := by
  induction zs with
  | nil => simp [convexScan]
  | cons z zs ih =>
      by_cases hkz : keep z = true
      · simp only [convexScan, hkz, if_true, if_pos rfl]
        rw [convexScan_ne keep zs (sgnQ z) (hk z hkz)]
        constructor
        · intro h a ha b hb hka hkb
          have hval : ∀ w ∈ z :: zs, keep w = true → sgnQ w = sgnQ z := by
            intro w hw hkw
            rcases List.mem_cons.mp hw with hw | hw
            · subst hw; rfl
            · exact h w hw hkw
          rw [hval a ha hka, hval b hb hkb]
        · intro h w hw hkw
          exact h w (List.mem_cons_of_mem _ hw) z (List.mem_cons_self _ _) hkw hkz
      · have hk2 : keep z = false := by
          cases h : keep z
          · rfl
          · exact absurd h hkz
        simp only [convexScan, hk2, Bool.false_eq_true, if_false]
        rw [ih]
        constructor
        · intro h a ha b hb hka hkb
          rcases List.mem_cons.mp ha with ha | ha
          · subst ha; exact absurd hka hkz
          · rcases List.mem_cons.mp hb with hb | hb
            · subst hb; exact absurd hkb hkz
            · exact h a ha b hb hka hkb
        · intro h a ha b hb hka hkb
          exact h a (List.mem_cons_of_mem _ ha) b (List.mem_cons_of_mem _ hb) hka hkb

theorem keepSafe_iff (z : ℚ) :
    ((!decide (absQ z < 1 / 1000000)) = true) ↔ ¬(absQ z < 1 / 1000000) := by
  simp

theorem keepExact_iff (z : ℚ) : (decide (z ≠ 0) = true) ↔ z ≠ 0 := by
  simp

/-- C6 (amended).  The tolerant behaviour the claim describes belongs to
the builders' `isConvexSafe` (src/export/builders.ts:202): it ignores
cross products with `|z| < 1e-6` and returns false exactly when two
non-negligible cross products have different signs.  The geometry module's
`isConvex` (src/geometry/transforms.ts:113) has no tolerance: it ignores
only exactly-zero cross products and returns false on any sign flip among
the nonzero ones. -/
theorem C6_convexity_characterisation (v : List Vec2) :
    (isConvexSafe v = false ↔
      ∃ a ∈ crossList v, ∃ b ∈ crossList v,
        1 / 1000000 ≤ absQ a ∧ 1 / 1000000 ≤ absQ b ∧ sgnQ a ≠ sgnQ b) ∧
    (isConvex v = false ↔
      ∃ a ∈ crossList v, ∃ b ∈ crossList v, a ≠ 0 ∧ b ≠ 0 ∧ sgnQ a ≠ sgnQ b) := by
  constructor
  · have hk : ∀ z : ℚ, (!decide (absQ z < 1 / 1000000)) = true → sgnQ z ≠ 0 := by
      intro z hz
      have hz2 : ¬(absQ z < 1 / 1000000) := (keepSafe_iff z).mp hz
      apply sgnQ_ne_zero
      intro h0
      rw [h0] at hz2
      exact hz2 (by norm_num [absQ])
    have hchar := convexScan_zero (fun z => !decide (absQ z < 1 / 1000000))
      (crossList v) hk
    rw [isConvexSafe, ← Bool.not_eq_true, hchar]
    simp only [keepSafe_iff]
    constructor
    · intro h
      push_neg at h
      exact h
    · intro h
      push_neg
      exact h
  · have hk : ∀ z : ℚ, decide (z ≠ 0) = true → sgnQ z ≠ 0 := by
      intro z hz
      exact sgnQ_ne_zero z ((keepExact_iff z).mp hz)
    have hchar := convexScan_zero (fun z => decide (z ≠ 0)) (crossList v) hk
    rw [isConvex, ← Bool.not_eq_true, hchar]
    simp only [keepExact_iff]
    constructor
    · intro h
      push_neg at h
      exact h
    · intro h
      push_neg
      exact h

/-- C6 (counterexample to the claim as stated).  On this vertex list the
only negative cross product is `-1e-7`, negligible under the claim's
`|z| < 1e-6` threshold, and every non-negligible cross product is
positive, so the claim predicts `isConvex = true`; the source `isConvex`
has no such threshold and returns false.  (`isConvexSafe`, by contrast,
returns true here.) -/
theorem C6_counterexample :
    isConvex [((0 : ℚ), (0 : ℚ)), (1, 0), (2, -1 / 10000000), (0, 1)] = false ∧
    isConvexSafe [((0 : ℚ), (0 : ℚ)), (1, 0), (2, -1 / 10000000), (0, 1)] = true ∧
    crossList [((0 : ℚ), (0 : ℚ)), (1, 0), (2, -1 / 10000000), (0, 1)] =
      [-1 / 10000000, 9999999 / 10000000, 2, 1] := by
  have hl : crossList [((0 : ℚ), (0 : ℚ)), (1, 0), (2, -1 / 10000000), (0, 1)] =
      [-1 / 10000000, 9999999 / 10000000, 2, 1] := by
    norm_num [crossList, crossTriple, List.range_succ]
  refine ⟨?_, ?_, hl⟩
  · rw [isConvex, hl]
    norm_num [convexScan, sgnQ]
  · rw [isConvexSafe, hl]
    norm_num [convexScan, sgnQ, absQ]

/-! ## RDP simplification (src/geometry/transforms.ts lines 149-213)

`Math.hypot` needs a square root, which is not rational; every definition
of this section takes the square-root function `sq` as a parameter and the
theorems quantify over it (adding the hypotheses on `sq` they need). -/

/-- JavaScript `Math.max` on two numbers. -/
def maxQ (a b : ℚ) : ℚ := if a < b then b else a

/-- JavaScript `Math.hypot(a, b) = sqrt(a*a + b*b)` for a given square
root function. -/
def hypotQ (sq : ℚ → ℚ) (a b : ℚ) : ℚ := sq (a * a + b * b)

/-- Source `perpendicularDistance` (src/geometry/transforms.ts:151). -/
def perpendicularDistance (sq : ℚ → ℚ) (p a b : Vec2) : ℚ :=
  let dx := b.1 - a.1
  let dy := b.2 - a.2
  if dx = 0 ∧ dy = 0 then hypotQ sq (p.1 - a.1) (p.2 - a.2)
  else
    let t := ((p.1 - a.1) * dx + (p.2 - a.2) * dy) / (dx * dx + dy * dy)
    let projX := a.1 + t * dx
    let projY := a.2 + t * dy
    hypotQ sq (p.1 - projX) (p.2 - projY)

/-- The `maxDist`/`index` scan of `rdp`: walk the interior points (position
counter `i` starts at 1), keeping the first index of the strictly largest
distance; `maxDist` starts at -1 and `index` at -1 as in the source. -/
def rdpGo (sq : ℚ → ℚ) (first lst : Vec2) :
    List Vec2 → ℕ → ℚ → ℤ → ℚ × ℤ
  | [], _, m, idx => (m, idx)
  | p :: rest, i, m, idx =>
      let d := perpendicularDistance sq p first lst
      if d > m then rdpGo sq first lst rest (i + 1) d i
      else rdpGo sq first lst rest (i + 1) m idx

/-- The farthest interior point of a run of `rdp`: distance and index. -/
def rdpFar (sq : ℚ → ℚ) (points : List Vec2) : ℚ × ℤ :=
  rdpGo sq (points.headD ((0 : ℚ), (0 : ℚ))) (points.getLastD ((0 : ℚ), (0 : ℚ)))
    ((points.drop 1).dropLast) 1 (-1) (-1)

/-- Source `rdp` (src/geometry/transforms.ts:160).  The recursion of the
source is on strictly shorter slices (the split index lies strictly inside
the list), so its depth is bounded by the list length; the embedding makes
that bound explicit as fuel, and every caller passes the list length. -/
def rdp (sq : ℚ → ℚ) : ℕ → List Vec2 → ℚ → List Vec2
  | 0, points, _ => points
  | fuel + 1, points, eps =>
      if points.length ≤ 2 then points
      else
        let far := rdpFar sq points
        if far.1 > eps then
          let i := far.2.toNat
          let left := rdp sq fuel (points.take (i + 1)) eps
          let right := rdp sq fuel (points.drop i) eps
          left.dropLast ++ right
        else [points.headD ((0 : ℚ), (0 : ℚ)), points.getLastD ((0 : ℚ), (0 : ℚ))]

/-- Source `simplifyPolygonRDPClosed` (src/geometry/transforms.ts:176):
drop a duplicated closing vertex (distance below 1e-9), run RDP on the
opened ring, and fall back to the first three ring vertices when RDP
collapsed below a triangle. -/
def simplifyPolygonRDPClosed (sq : ℚ → ℚ) (points : List Vec2) (eps : ℚ) :
    List Vec2 :=
  if points.length ≤ 3 then points
  else
    let ring :=
      if 1 < points.length ∧
          hypotQ sq ((points.headD ((0 : ℚ), (0 : ℚ))).1 - (points.getLastD ((0 : ℚ), (0 : ℚ))).1)
            ((points.headD ((0 : ℚ), (0 : ℚ))).2 - (points.getLastD ((0 : ℚ), (0 : ℚ))).2)
            < 1 / 1000000000 then
        points.dropLast
      else points
    let simplified := rdp sq points.length ring eps
    if simplified.length < 3 then ring.take 3 else simplified

/-- The options record `{epsilon?, maxPoints?}` of `simplifyPolygon`;
`maxPoints` is `none` for the default `Number.POSITIVE_INFINITY` (the
source guards the budget with `Number.isFinite`). -/
structure SimplifyOpts where
  epsilon : Option ℚ
  maxPoints : Option ℚ

/-- The `maxPoints` down-sampling stage of `simplifyPolygon`: when a
finite budget is given and still exceeded, pick `max 3 ⌊maxPoints⌋` points
by a uniform stride (`simp[Math.floor(i*step)]`); otherwise pass the list
through.  `none` stands for the default `Number.POSITIVE_INFINITY`, which
fails the source's `Number.isFinite(maxPts)` guard. -/
def simplifyCap (simp1 : List Vec2) (maxPoints : Option ℚ) : List Vec2 :=
  match maxPoints with
  | none => simp1
  | some mp =>
      if (simp1.length : ℚ) > mp then
        let keep := max 3 (Int.floor mp).toNat
        let step : ℚ := (simp1.length : ℚ) / (keep : ℚ)
        (List.range keep).map
          (fun (i : ℕ) => simp1.getD (Int.floor ((i : ℚ) * step)).toNat ((0 : ℚ), (0 : ℚ)))
      else simp1

/-- Source `simplifyPolygon` (src/geometry/transforms.ts:191): clamp
epsilon at 0 (default 1.5), normalise to clockwise, RDP-simplify, apply
the `maxPoints` budget, and re-emit in clockwise winding. -/
def simplifyPolygon (sq : ℚ → ℚ) (vertices : List Vec2) (opts : SimplifyOpts) :
    List Vec2 :=
  ensureClockwise
    (simplifyCap
      (simplifyPolygonRDPClosed sq (ensureClockwise vertices)
        (maxQ 0 (opts.epsilon.getD (3 / 2))))
      opts.maxPoints)

theorem ensureClockwise_length (p : List Vec2) :
    (ensureClockwise p).length = p.length := by
  unfold ensureClockwise
  split_ifs <;> simp

theorem mem_ensureClockwise (p : List Vec2) (x : Vec2) :
    x ∈ ensureClockwise p ↔ x ∈ p := by
  unfold ensureClockwise
  split_ifs <;> simp

theorem headD_mem (l : List Vec2) (d : Vec2) (h : l ≠ []) : l.headD d ∈ l := by
  cases l with
  | nil => exact absurd rfl h
  | cons a t => simp

theorem getLastD_mem (l : List Vec2) (d : Vec2) (h : l ≠ []) : l.getLastD d ∈ l := by
  cases l with
  | nil => exact absurd rfl h
  | cons a t =>
      rw [List.getLastD_eq_getLast?, List.getLast?_eq_getLast _ (by simp)]
      simp [List.getLast_mem]

theorem getD_mem (l : List Vec2) (n : ℕ) (d : Vec2) (h : n < l.length) :
    l.getD n d ∈ l := by
  rw [List.getD_eq_getElem l d h]
  exact List.getElem_mem h

theorem rdp_subset (sq : ℚ → ℚ) (fuel : ℕ) (points : List Vec2) (eps : ℚ)
    (x : Vec2) (hx : x ∈ rdp sq fuel points eps) : x ∈ points := by
  induction fuel generalizing points with
  | zero => exact hx
  | succ fuel ih =>
      rw [rdp] at hx
      by_cases h2 : points.length ≤ 2
      · rw [if_pos h2] at hx; exact hx
      · rw [if_neg h2] at hx
        have hne : points ≠ [] := by
          intro h; rw [h] at h2; simp at h2
        by_cases hfar : (rdpFar sq points).1 > eps
        · rw [if_pos hfar] at hx
          rcases List.mem_append.mp hx with hl | hr
          · have h3 := ih _ (List.dropLast_subset _ hl)
            exact List.take_subset _ _ h3
          · have h3 := ih _ hr
            exact List.drop_subset _ _ h3
        · rw [if_neg hfar] at hx
          rcases List.mem_cons.mp hx with h | h
          · rw [h]; exact headD_mem _ _ hne
          · rcases List.mem_cons.mp h with h | h
            · rw [h]; exact getLastD_mem _ _ hne
            · simp at h

theorem rdpClosed_subset (sq : ℚ → ℚ) (points : List Vec2) (eps : ℚ)
    (x : Vec2) (hx : x ∈ simplifyPolygonRDPClosed sq points eps) : x ∈ points := by
  unfold simplifyPolygonRDPClosed at hx
  by_cases h1 : points.length ≤ 3
  · rw [if_pos h1] at hx; exact hx
  · rw [if_neg h1] at hx
    simp only at hx
    split_ifs at hx with hring hlen3 hlen3
    · have h3 := List.take_subset 3 _ hx
      exact List.dropLast_subset _ h3
    · exact List.dropLast_subset _ (rdp_subset sq _ _ _ x hx)
    · exact List.take_subset 3 _ hx
    · exact rdp_subset sq _ _ _ x hx

theorem rdpClosed_length (sq : ℚ → ℚ) (points : List Vec2) (eps : ℚ)
    (hlen : 3 ≤ points.length) :
    3 ≤ (simplifyPolygonRDPClosed sq points eps).length := by
  unfold simplifyPolygonRDPClosed
  by_cases h1 : points.length ≤ 3
  · rw [if_pos h1]; exact hlen
  · rw [if_neg h1]
    push_neg at h1
    simp only
    split_ifs with hring hlen3 hlen3
    · rw [List.length_take, List.length_dropLast]
      omega
    · push_neg at hlen3; exact hlen3
    · rw [List.length_take]
      omega
    · push_neg at hlen3; exact hlen3

theorem perpDist_self (sq : ℚ → ℚ) (a b : Vec2) :
    perpendicularDistance sq a a b = sq 0 := by
  simp only [perpendicularDistance, hypotQ]
  split_ifs with h
  · congr 1; ring
  · congr 1; ring

theorem resample_index_lt (len keep i : ℕ) (hkeep : 0 < keep) (hlen : 0 < len)
    (hi : i < keep) :
    (Int.floor ((i : ℚ) * ((len : ℚ) / (keep : ℚ)))).toNat < len := by
  have hkq : (0 : ℚ) < (keep : ℚ) := by exact_mod_cast hkeep
  have hlq : (0 : ℚ) < (len : ℚ) := by exact_mod_cast hlen
  have hstep : (i : ℚ) * ((len : ℚ) / (keep : ℚ)) < (len : ℚ) := by
    have hiq : (i : ℚ) ≤ (keep : ℚ) - 1 := by
      have : (i : ℚ) + 1 ≤ (keep : ℚ) := by exact_mod_cast hi
      linarith
    have hpos : (0 : ℚ) < (len : ℚ) / (keep : ℚ) := div_pos hlq hkq
    calc (i : ℚ) * ((len : ℚ) / (keep : ℚ))
        ≤ ((keep : ℚ) - 1) * ((len : ℚ) / (keep : ℚ)) := by
          apply mul_le_mul_of_nonneg_right hiq (le_of_lt hpos)
      _ = (len : ℚ) - (len : ℚ) / (keep : ℚ) := by
          field_simp
          ring
      _ < (len : ℚ) := by linarith
  have hfl : (Int.floor ((i : ℚ) * ((len : ℚ) / (keep : ℚ)))) < (len : ℤ) := by
    rw [Int.floor_lt]
    exact_mod_cast hstep
  omega

theorem simplifyCap_length (simp1 : List Vec2) (mp : Option ℚ)
    (h3 : 3 ≤ simp1.length) :
    3 ≤ (simplifyCap simp1 mp).length ∧
    (∀ k : ℕ, mp = some (k : ℚ) → 3 ≤ k →
      (simplifyCap simp1 mp).length = min simp1.length k) := by
  cases mp with
  | none =>
      refine ⟨h3, ?_⟩
      intro k hk
      simp at hk
  | some m =>
      by_cases hcond : (simp1.length : ℚ) > m
      · have hres : (simplifyCap simp1 (some m)).length = max 3 (Int.floor m).toNat := by
          simp [simplifyCap, hcond]
        constructor
        · rw [hres]; omega
        · intro k hk h3k
          have hm : m = (k : ℚ) := by injection hk
          subst hm
          have hfl : Int.floor ((k : ℚ)) = (k : ℤ) := Int.floor_natCast k
          rw [hres, hfl]
          have hlt : k < simp1.length := by exact_mod_cast hcond
          omega
      · have hres : simplifyCap simp1 (some m) = simp1 := by
          simp [simplifyCap, hcond]
        constructor
        · rw [hres]; exact h3
        · intro k hk h3k
          have hm : m = (k : ℚ) := by injection hk
          subst hm
          have hle : simp1.length ≤ k := by
            push_neg at hcond
            exact_mod_cast hcond
          rw [hres]
          omega

theorem simplifyCap_subset (simp1 : List Vec2) (mp : Option ℚ)
    (h3 : 3 ≤ simp1.length) (x : Vec2) (hx : x ∈ simplifyCap simp1 mp) :
    x ∈ simp1 := by
  cases mp with
  | none => exact hx
  | some m =>
      by_cases hcond : (simp1.length : ℚ) > m
      · simp only [simplifyCap, if_pos hcond, List.mem_map, List.mem_range] at hx
        obtain ⟨i, hi, heq⟩ := hx
        rw [← heq]
        apply getD_mem
        exact resample_index_lt simp1.length (max 3 (Int.floor m).toNat) i
          (by omega) (by omega) hi
      · simp only [simplifyCap, if_neg hcond] at hx
        exact hx

/-- C5 (amended).  Bounds of `simplifyPolygon`
(src/geometry/transforms.ts:176-213): for an input ring of at least three
vertices the output has at least three vertices; every output vertex is an
input vertex, hence lies at perpendicular distance 0 ≤ ε of an edge of the
original polygon; and a finite budget `maxPoints = k ≥ 3` yields exactly
`min(r, k)` vertices, where `r` is the vertex count the RDP stage
produced - exactly `k` when the budget actually bites (`r > k`), and `r`
(possibly fewer than `k`) otherwise. -/
theorem C5_simplify_bounds (sq : ℚ → ℚ) (input : List Vec2) (opts : SimplifyOpts)
    (hsq0 : sq 0 = 0) (hlen : 3 ≤ input.length) :
    3 ≤ (simplifyPolygon sq input opts).length ∧
    (∀ v ∈ simplifyPolygon sq input opts, v ∈ input) ∧
    (∀ e, opts.epsilon = some e → 0 ≤ e →
      ∀ v ∈ simplifyPolygon sq input opts, ∃ i, i < input.length ∧
        perpendicularDistance sq v (input.getD i ((0 : ℚ), (0 : ℚ)))
          (input.getD ((i + 1) % input.length) ((0 : ℚ), (0 : ℚ))) ≤ e) ∧
    (∀ k : ℕ, opts.maxPoints = some (k : ℚ) → 3 ≤ k →
      (simplifyPolygon sq input opts).length =
        min (simplifyPolygonRDPClosed sq (ensureClockwise input)
              (maxQ 0 (opts.epsilon.getD (3 / 2)))).length k) := by
  have hcwlen : (ensureClockwise input).length = input.length :=
    ensureClockwise_length input
  have h1len : 3 ≤ (simplifyPolygonRDPClosed sq (ensureClockwise input)
      (maxQ 0 (opts.epsilon.getD (3 / 2)))).length :=
    rdpClosed_length sq _ _ (by rw [hcwlen]; exact hlen)
  have h1sub : ∀ v ∈ simplifyPolygonRDPClosed sq (ensureClockwise input)
      (maxQ 0 (opts.epsilon.getD (3 / 2))), v ∈ input := by
    intro v hv
    exact (mem_ensureClockwise input v).mp (rdpClosed_subset sq _ _ v hv)
  have hcap := simplifyCap_length _ opts.maxPoints h1len
  have hsub : ∀ v ∈ simplifyPolygon sq input opts, v ∈ input := by
    intro v hv
    rw [simplifyPolygon] at hv
    have h2 := (mem_ensureClockwise _ v).mp hv
    exact h1sub v (simplifyCap_subset _ _ h1len v h2)
  refine ⟨?_, hsub, ?_, ?_⟩
  · rw [simplifyPolygon, ensureClockwise_length]
    exact hcap.1
  · intro e he1 he2 v hv
    have hvin : v ∈ input := hsub v hv
    obtain ⟨⟨i, hilt⟩, hi⟩ := List.mem_iff_get.mp hvin
    refine ⟨i, hilt, ?_⟩
    have hgd : input.getD i ((0 : ℚ), (0 : ℚ)) = v := by
      rw [List.getD_eq_getElem _ _ hilt, ← hi]
      simp [List.get_eq_getElem]
    rw [hgd, perpDist_self, hsq0]
    exact he2
  · intro k hk h3k
    rw [simplifyPolygon, ensureClockwise_length]
    exact hcap.2 k hk h3k

/-- C5 witness: `C5_simplify_bounds` applied to a concrete clockwise
square, a zero square-root stand-in and a budget of 4. -/
theorem C5_simplify_bounds_witness :
    3 ≤ (simplifyPolygon (fun _ => 0)
          [((0 : ℚ), (0 : ℚ)), (0, 4), (4, 4), (4, 0)]
          ⟨some 0, some 4⟩).length := by
  have h := C5_simplify_bounds (fun _ => 0)
    [((0 : ℚ), (0 : ℚ)), (0, 4), (4, 4), (4, 0)]
    ⟨some 0, some 4⟩ rfl (by simp)
  exact h.1

/-- C5 (counterexample to the claim as stated).  The claim says a supplied
budget `maxPoints = k ≥ 3` makes the output have exactly `k` vertices; for
a triangle and `k = 10` the RDP stage returns 3 vertices, the budget
(`10`) is not exceeded and the down-sampling never runs, so the output has
3 ≠ 10 vertices. -/
theorem C5_counterexample :
    (simplifyPolygon (fun _ => 0)
        [((0 : ℚ), (0 : ℚ)), (4, 0), (0, 4)] ⟨some 0, some 10⟩).length = 3 ∧
    (3 : ℕ) ≠ 10 := by
  constructor
  · norm_num [simplifyPolygon, simplifyPolygonRDPClosed, simplifyCap,
      ensureClockwise, areaSigned, shoelace, cyc, crossQ, maxQ]
  · decide

/-! ## Triangulation (src/geometry/transforms.ts triangulateConcave)

`triangulateConcave` delegates to the external `earcut` npm library, which
is not part of the repository.  `earcut` is modelled from the spec below;
the flat `[x0,y0,x1,y1,...]` argument array of the real library is
modelled as a list of pairs. -/

/-- Twice-signed area of the triangle `a b c` (cross product of its two
edge vectors). -/
def triCross (a b c : Vec2) : ℚ :=
  (b.1 - a.1) * (c.2 - a.2) - (b.2 - a.2) * (c.1 - a.1)

/-- Absolute area of the triangle `a b c`. -/
def triAreaQ (a b c : Vec2) : ℚ := absQ (triCross a b c) / 2

/-- Absolute area of a polygon, from the shoelace formula. -/
def polygonAreaQ (vs : List Vec2) : ℚ := absQ (areaSigned vs)

/-- Whether `p` lies inside or on the triangle `a b c`: all three edge
cross products share a sign. -/
def pointInTri (a b c p : Vec2) : Bool :=
  let s1 := crossQ (b.1 - a.1, b.2 - a.2) (p.1 - a.1, p.2 - a.2)
  let s2 := crossQ (c.1 - b.1, c.2 - b.2) (p.1 - b.1, p.2 - b.2)
  let s3 := crossQ (a.1 - c.1, a.2 - c.2) (p.1 - c.1, p.2 - c.2)
  (decide (0 ≤ s1) && decide (0 ≤ s2) && decide (0 ≤ s3)) ||
    (decide (s1 ≤ 0) && decide (s2 ≤ 0) && decide (s3 ≤ 0))

/-- Whether vertex `j` of the working polygon is an ear: its corner turns
the same way as the polygon (`orient * z > 0`) and no remaining vertex of
the polygon lies inside its triangle. -/
def isEarAt (orient : ℚ) (poly : List (ℕ × Vec2)) (j : ℕ) : Bool :=
  let n := poly.length
  let dflt : ℕ × Vec2 := (0, ((0 : ℚ), (0 : ℚ)))
  let prev := poly.getD ((j + n - 1) % n) dflt
  let cur := poly.getD (j % n) dflt
  let next := poly.getD ((j + 1) % n) dflt
  let z := triCross prev.2 cur.2 next.2
  decide (0 < orient * z) &&
    poly.all (fun q =>
      decide (q.1 = prev.1) || decide (q.1 = cur.1) || decide (q.1 = next.1) ||
        !pointInTri prev.2 cur.2 next.2 q.2)

/-- The first ear of the working polygon, scanning from index 0. -/
def findEar (orient : ℚ) (poly : List (ℕ × Vec2)) : Option ℕ :=
  (List.range poly.length).find? (isEarAt orient poly)

/-- The clipping loop: emit the ear's index triple (previous, ear, next),
remove the ear vertex and continue; a triangle emits itself.  Fuel bounds
the number of clips by the vertex count. -/
def earClipGo (orient : ℚ) : ℕ → List (ℕ × Vec2) → List ℕ → List ℕ
  | 0, _, acc => acc
  | fuel + 1, poly, acc =>
      let n := poly.length
      let dflt : ℕ × Vec2 := (0, ((0 : ℚ), (0 : ℚ)))
      if n < 3 then acc
      else if n = 3 then
        acc ++ [(poly.getD 0 dflt).1, (poly.getD 1 dflt).1, (poly.getD 2 dflt).1]
      else
        match findEar orient poly with
        | none => acc
        | some j =>
            let prev := poly.getD ((j + n - 1) % n) dflt
            let cur := poly.getD (j % n) dflt
            let next := poly.getD ((j + 1) % n) dflt
            earClipGo orient fuel (poly.eraseIdx j) (acc ++ [prev.1, cur.1, next.1])

/-- Modelled from the spec: the external `earcut` npm library used by
`triangulateConcave` is not part of the repository; the spec describes it
as "ear-clipping triangulation (with a coordinate-system flip to match the
triangulator's expected winding)" - an algorithm that repeatedly removes a
triangle ("ear") from the polygon boundary and returns a flat list of
vertex-index triples into its input array. -/
def earcut (pts : List Vec2) : List ℕ :=
  earClipGo (shoelace pts) pts.length pts.enum []

/-- Source `triangulateConcave` (src/geometry/transforms.ts:104): reverse
the vertex list and negate Y ("For earcut, we flip Y and reverse to CCW"),
run earcut on that reversed list, and return the original vertices with
earcut's indices unchanged ("indices refer to reversed list; but that's
fine because geometry stays consistent when we build triangles
downstream"). -/
def triangulateConcave (vertices : List Vec2) : List Vec2 × List ℕ :=
  let vCCW_Ydown := (vertices.reverse).map (fun p => (p.1, -p.2))
  (vertices, earcut vCCW_Ydown)

/-- Index triples of a flat index list. -/
def triplesOf : List ℕ → List (ℕ × ℕ × ℕ)
  | a :: b :: c :: rest => (a, b, c) :: triplesOf rest
  | _ => []

/-- Total area of the triangles a `{vertices, indices}` pair describes
when each index triple is read directly against the vertex list - exactly
how the preview renderer (src/ui.tsx, `Trimesh` case) consumes
`triangulateConcave`'s result. -/
def triAreaSum (vs : List Vec2) (idx : List ℕ) : ℚ :=
  ((triplesOf idx).map (fun t =>
    triAreaQ (vs.getD t.1 ((0 : ℚ), (0 : ℚ))) (vs.getD t.2.1 ((0 : ℚ), (0 : ℚ)))
      (vs.getD t.2.2 ((0 : ℚ), (0 : ℚ))))).sum

/-- C2 (evaluation at the failing input).  On the clockwise concave
quadrilateral `[(0,0), (0,4), (1,1), (4,0)]` the function returns the
original vertices with `4 - 2 = 2` index triples, all indices in range -
but the indices refer to the internally reversed list: read against the
returned original-orientation vertex list (as the spec demands and as the
preview renderer does), the two triangles cover total area 12, three times
the polygon's area 4, so the triangulation does not reconstruct the
polygon. -/
theorem C2_triangulate_failing_input :
    triangulateConcave [((0 : ℚ), (0 : ℚ)), (0, 4), (1, 1), (4, 0)] =
      ([((0 : ℚ), (0 : ℚ)), (0, 4), (1, 1), (4, 0)], [3, 0, 1, 1, 2, 3]) ∧
    (triplesOf (triangulateConcave
      [((0 : ℚ), (0 : ℚ)), (0, 4), (1, 1), (4, 0)]).2).length = 4 - 2 ∧
    (∀ i ∈ (triangulateConcave
      [((0 : ℚ), (0 : ℚ)), (0, 4), (1, 1), (4, 0)]).2, i < 4) ∧
    triAreaSum [((0 : ℚ), (0 : ℚ)), (0, 4), (1, 1), (4, 0)] [3, 0, 1, 1, 2, 3] = 12 ∧
    polygonAreaQ [((0 : ℚ), (0 : ℚ)), (0, 4), (1, 1), (4, 0)] = 4 ∧
    (12 : ℚ) ≠ 4 := by
  have hmain : triangulateConcave [((0 : ℚ), (0 : ℚ)), (0, 4), (1, 1), (4, 0)] =
      ([((0 : ℚ), (0 : ℚ)), (0, 4), (1, 1), (4, 0)], [3, 0, 1, 1, 2, 3]) := by
    norm_num [triangulateConcave, earcut, earClipGo, findEar, isEarAt, pointInTri,
      triCross, crossQ, shoelace, cyc, List.enum, List.range_succ, List.find?,
      List.eraseIdx, absQ]
  refine ⟨hmain, ?_, ?_, ?_, ?_, by norm_num⟩
  · rw [hmain]
    norm_num [triplesOf]
  · rw [hmain]
    intro i hi
    simp at hi
    rcases hi with h | h | h | h <;> omega
  · norm_num [triAreaSum, triplesOf, triAreaQ, triCross, absQ]
  · norm_num [polygonAreaQ, areaSigned, shoelace, cyc, crossQ, absQ]

/-! ## String helpers

`String.startsWith` / `trim` of the Lean library do not reduce well under
the kernel, so the convention tests of the source are modelled over the
character lists of the strings. -/

/-- JavaScript `name.startsWith(pre)`. -/
def strStarts (s pre : String) : Bool := pre.data.isPrefixOf s.data

/-- JavaScript `name.replace(/^pre/, '')`: drop `pre` when it is a prefix,
otherwise leave the string unchanged. -/
def stripStart (s pre : String) : String :=
  if strStarts s pre then String.mk (s.data.drop pre.data.length) else s

/-- JavaScript `name.trim()`. -/
def strTrim (s : String) : String :=
  String.mk (((s.data.dropWhile Char.isWhitespace).reverse.dropWhile
    Char.isWhitespace).reverse)

/-- A word character for the `\b` boundary of the source's
`/^Collider:\s*Compound\b/` test. -/
def isWordChar (c : Char) : Bool := c.isAlphanum || c = '_'

/-- The source's regular-expression test `/^Collider:\s*Compound\b/`. -/
def testCompoundName (s : String) : Bool :=
  if strStarts s "Collider:" then
    let rest := (s.data.drop 9).dropWhile Char.isWhitespace
    "Compound".data.isPrefixOf rest &&
      (match rest.drop 8 with
       | [] => true
       | c :: _ => !isWordChar c)
  else false

/-! ## Real-number operations

`Math.sqrt`, the trigonometric functions, `Math.PI`, and the two external
helpers of the geometry pipeline are not rational (or not part of the
repository); every definition that needs one takes this record as an
argument. -/

structure RealOps where
  sqrt : ℚ → ℚ
  sin : ℚ → ℚ
  cos : ℚ → ℚ
  /-- `Math.atan2 y x`, arguments in that order. -/
  atan2 : ℚ → ℚ → ℚ
  acos : ℚ → ℚ
  pi : ℚ
  /-- Modelled from the spec: `decomp.quickDecomp` of the external
  `poly-decomp` npm library ("a convex-decomposition algorithm"); `.error`
  models a thrown exception. -/
  quickDecomp : List Vec2 → Except String (List (List Vec2))
  /-- Modelled: JavaScript `parseFloat` on a custom-parameter string (a
  `NaN` result is not representable over `ℚ` and is not exercised by any
  theorem below). -/
  parseFloatQ : String → ℚ
  /-- Modelled: JavaScript `parseInt(s, 10)`, same caveat. -/
  parseIntQ : String → ℚ
  /-- `new Date().toISOString()` of the export run. -/
  nowISO : String

/-- A rational stand-in for `Math.sqrt`: exact on perfect squares (of the
numerator and denominator), positive on every positive input, 0 on 0 and
on negative inputs.  It agrees with the real square root on every input
the concrete theorems of this file exercise. -/
def qSqrt (q : ℚ) : ℚ :=
  if q ≤ 0 then 0
  else
    let n := q.num.toNat
    let d := q.den
    let sn := Nat.sqrt n
    let sd := Nat.sqrt d
    if sn * sn = n ∧ sd * sd = d then (sn : ℚ) / (sd : ℚ)
    else ((Nat.sqrt (n * d) : ℚ) + 1) / (d : ℚ)

/-- Concrete `RealOps` used by the closed theorems: `qSqrt` for the square
root; the trigonometric stand-ins are exact at the only angles those
theorems evaluate them at (`atan2(0, x) = 0` for `x > 0`, `cos 0 = 1`,
`sin 0 = 0`, `acos 1 = 0`), and arbitrary elsewhere. -/
def qOps : RealOps where
  sqrt := qSqrt
  sin := fun q => if q = 0 then 0 else q
  cos := fun q => if q = 0 then 1 else q
  atan2 := fun y x => if y = 0 ∧ 0 < x then 0 else y + x
  acos := fun q => if q = 1 then 0 else q
  pi := 355 / 113
  quickDecomp := fun l => .ok [l]
  parseFloatQ := fun _ => 0
  parseIntQ := fun _ => 0
  nowISO := "1970-01-01T00:00:00.000Z"

/-- JavaScript `Math.min`. -/
def minQ (a b : ℚ) : ℚ := if b < a then b else a

/-- JavaScript truncation `x | 0` (toward zero). -/
def truncZ (q : ℚ) : ℤ := if q < 0 then -(Int.floor (-q)) else Int.floor q

/-! ## Transform math (src/geometry/transforms.ts lines 1-67) -/

/-- A 2x3 affine matrix `[[a, c, tx], [b, d, ty]]` as the source indexes
it: `m[0][0], m[0][1], m[0][2]; m[1][0], m[1][1], m[1][2]`. -/
structure Mat2x3 where
  m00 : ℚ
  m01 : ℚ
  m02 : ℚ
  m10 : ℚ
  m11 : ℚ
  m12 : ℚ
deriving DecidableEq, Repr

/-- Source `applyToPoint` (transforms.ts:16). -/
def applyToPoint (m : Mat2x3) (x y : ℚ) : Vec2 :=
  (m.m00 * x + m.m01 * y + m.m02, m.m10 * x + m.m11 * y + m.m12)

/-- Source `getRotationFromMatrix` (transforms.ts:20): `atan2(b, a)` of
the first column. -/
def getRotationFromMatrix (ops : RealOps) (m : Mat2x3) : ℚ :=
  ops.atan2 m.m01 m.m00

/-- Source `sub` (transforms.ts:3). -/
def subV (a b : Vec2) : Vec2 := (a.1 - b.1, a.2 - b.2)

/-- Source `add` (transforms.ts:4). -/
def addV (a b : Vec2) : Vec2 := (a.1 + b.1, a.2 + b.2)

/-- Source `rot` (transforms.ts:5). -/
def rotV (ops : RealOps) (p : Vec2) (ang : ℚ) : Vec2 :=
  let c := ops.cos ang
  let s := ops.sin ang
  (p.1 * c - p.2 * s, p.1 * s + p.2 * c)

/-- Source `toGoLocal` (transforms.ts:10). -/
def toGoLocal (ops : RealOps) (pWorld goPos : Vec2) (goRot : ℚ) : Vec2 :=
  rotV ops (subV pWorld goPos) (-goRot)

/-- Source `tlToCenterYUp` (transforms.ts:33). -/
def tlToCenterYUp (pTL : Vec2) (width height : ℚ) : Vec2 :=
  (pTL.1 - width / 2, height / 2 - pTL.2)

/-! ## Path flattener (src/geometry/paths.ts)

The source tokenises `path.data` with the regular expression
`/[a-zA-Z]|number/g` and then walks the token stream; the embedding takes
the token list (letters and numbers) as input.  Two JavaScript behaviours
that `ℚ` cannot represent are noted where they are modelled: `parseFloat`
of a letter token and a destructured missing argument are both `NaN` in
the source and are modelled as 0 (no theorem below exercises a malformed
command stream).  Inner `while` loops and the command loop consume at
least one token per step, so their depth is bounded by the token count;
the embedding passes that bound as fuel. -/

inductive PathTok where
  | cmd (c : Char)
  | num (q : ℚ)
deriving DecidableEq, Repr

/-- The numeric value a consumed token contributes (`parseFloat`); a
letter would be `NaN`, modelled as 0. -/
def PathTok.val : PathTok → ℚ
  | .num q => q
  | .cmd _ => 0

/-- Whether the token fails the loop guard `/[a-zA-Z]/.test(...)`. -/
def PathTok.isNum : PathTok → Bool
  | .num _ => true
  | .cmd _ => false

/-- One contour of the flattener: its points and its `closed` tag. -/
structure Contour where
  pts : List Vec2
  closed : Bool
deriving DecidableEq, Repr

/-- Source `distPointToLine` (paths.ts:27), including the `|| 1e-12`
guard on the squared length. -/
def distPointToLine (sq : ℚ → ℚ) (p a b : Vec2) : ℚ :=
  let A := p.1 - a.1
  let B := p.2 - a.2
  let C := b.1 - a.1
  let D := b.2 - a.2
  let len2 := if C * C + D * D = 0 then 1 / 1000000000000 else C * C + D * D
  let t := (A * C + B * D) / len2
  let px := a.1 + t * C
  let py := a.2 + t * D
  hypotQ sq (p.1 - px) (p.2 - py)

/-- Source `flattenQuad` (paths.ts:35); `remaining = maxDepth - depth`. -/
def flattenQuad (sq : ℚ → ℚ) (tol : ℚ) : ℕ → Vec2 → Vec2 → Vec2 → List Vec2
  | 0, _, _, p2 => [p2]
  | rem + 1, p0, p1, p2 =>
      if distPointToLine sq p1 p0 p2 ≤ tol then [p2]
      else
        let p01 : Vec2 := ((p0.1 + p1.1) / 2, (p0.2 + p1.2) / 2)
        let p12 : Vec2 := ((p1.1 + p2.1) / 2, (p1.2 + p2.2) / 2)
        let p012 : Vec2 := ((p01.1 + p12.1) / 2, (p01.2 + p12.2) / 2)
        flattenQuad sq tol rem p0 p01 p012 ++ flattenQuad sq tol rem p012 p12 p2

/-- Source `flattenCubic` (paths.ts:47). -/
def flattenCubic (sq : ℚ → ℚ) (tol : ℚ) : ℕ → Vec2 → Vec2 → Vec2 → Vec2 → List Vec2
  | 0, _, _, _, p3 => [p3]
  | rem + 1, p0, p1, p2, p3 =>
      if maxQ (distPointToLine sq p1 p0 p3) (distPointToLine sq p2 p0 p3) ≤ tol then [p3]
      else
        let p01 : Vec2 := ((p0.1 + p1.1) / 2, (p0.2 + p1.2) / 2)
        let p12 : Vec2 := ((p1.1 + p2.1) / 2, (p1.2 + p2.2) / 2)
        let p23 : Vec2 := ((p2.1 + p3.1) / 2, (p2.2 + p3.2) / 2)
        let p012 : Vec2 := ((p01.1 + p12.1) / 2, (p01.2 + p12.2) / 2)
        let p123 : Vec2 := ((p12.1 + p23.1) / 2, (p12.2 + p23.2) / 2)
        let p0123 : Vec2 := ((p012.1 + p123.1) / 2, (p012.2 + p123.2) / 2)
        flattenCubic sq tol rem p0 p01 p012 p0123 ++ flattenCubic sq tol rem p0123 p123 p23 p3

/-- The record `svgArcToCenter` returns. -/
structure ArcCenter where
  cx : ℚ
  cy : ℚ
  theta1 : ℚ
  dtheta : ℚ
  rx : ℚ
  ry : ℚ
  phi : ℚ

/-- Source `svgArcToCenter` (paths.ts:63): the SVG endpoint-to-center arc
conversion, with radius correction, sign selection by the flag pair and
sweep-direction-aware angle clamping. -/
def svgArcToCenter (ops : RealOps) (x1 y1 rx0 ry0 phi : ℚ) (fa fs : ℤ)
    (x2 y2 : ℚ) : ArcCenter :=
  let sinPhi := ops.sin phi
  let cosPhi := ops.cos phi
  let dx := (x1 - x2) / 2
  let dy := (y1 - y2) / 2
  let x1p := cosPhi * dx + sinPhi * dy
  let y1p := -sinPhi * dx + cosPhi * dy
  let rx1 := absQ rx0
  let ry1 := absQ ry0
  if rx1 = 0 ∨ ry1 = 0 then ⟨x1, y1, 0, 0, rx1, ry1, phi⟩
  else
    let rAdj := x1p * x1p / (rx1 * rx1) + y1p * y1p / (ry1 * ry1)
    let s := ops.sqrt rAdj
    let rx := if rAdj > 1 then rx1 * s else rx1
    let ry := if rAdj > 1 then ry1 * s else ry1
    let sign : ℚ := if fa = fs then -1 else 1
    let num := rx * rx * ry * ry - rx * rx * y1p * y1p - ry * ry * x1p * x1p
    let den := rx * rx * y1p * y1p + ry * ry * x1p * x1p
    let co := sign * ops.sqrt (maxQ 0 (num / den))
    let cxp := co * (rx * y1p) / ry
    let cyp := -co * (ry * x1p) / rx
    let cx := cosPhi * cxp - sinPhi * cyp + (x1 + x2) / 2
    let cy := sinPhi * cxp + cosPhi * cyp + (y1 + y2) / 2
    let ux := (x1p - cxp) / rx
    let uy := (y1p - cyp) / ry
    let vx := (-x1p - cxp) / rx
    let vy := (-y1p - cyp) / ry
    let theta1 := ops.atan2 (1 * uy - 0 * ux) (1 * ux + 0 * uy)
    let dtheta0 := ops.atan2 (ux * vy - uy * vx) (ux * vx + uy * vy)
    let dtheta :=
      if fs = 0 ∧ dtheta0 > 0 then dtheta0 - 2 * ops.pi
      else if fs ≠ 0 ∧ dtheta0 < 0 then dtheta0 + 2 * ops.pi
      else dtheta0
    ⟨cx, cy, theta1, dtheta, rx, ry, phi⟩

/-- Source `flattenArc` (paths.ts:106): chord-error-driven segment count;
the ellipse's axis rotation `phi` is (as in the source) not re-applied in
the sampling loop. -/
def flattenArc (ops : RealOps) (p0 : Vec2) (rx ry xAxisRot : ℚ) (fa fs : ℤ)
    (p : Vec2) (tol : ℚ) : List Vec2 :=
  let c := svgArcToCenter ops p0.1 p0.2 rx ry xAxisRot fa fs p.1 p.2
  if c.rx = 0 ∨ c.ry = 0 ∨ c.dtheta = 0 then [p]
  else
    let rMax := maxQ c.rx c.ry
    let maxDelta := 2 * ops.acos (maxQ (-1) (minQ 1 (1 - tol / maxQ rMax (1 / 1000000))))
    let step := if maxDelta > 1 / 1000 then maxDelta else ops.pi / 12
    let segs := max 1 (Int.ceil (absQ c.dtheta / step)).toNat
    let delta := c.dtheta / (segs : ℚ)
    (List.range segs).map (fun (i : ℕ) =>
      let t := c.theta1 + delta * ((i : ℚ) + 1)
      (c.cx + c.rx * ops.cos t, c.cy + c.ry * ops.sin t))

/-- The mutable state of the `flattenSVGPath` loop. -/
structure FlattenSt where
  curr : Vec2
  start : Vec2
  lastC2 : Option Vec2
  active : Option (List Vec2)
  contours : List Contour

/-- The `lineTo` closure of `flattenSVGPath` (paths.ts:149): append the
(relative or absolute) point to the active contour unless it repeats the
last appended point, move `curr`, reset `lastC2`. -/
def lineToSt (isRel : Bool) (x y : ℚ) (st : FlattenSt) : FlattenSt :=
  let p : Vec2 := if isRel then (st.curr.1 + x, st.curr.2 + y) else (x, y)
  let active2 :=
    match st.active with
    | none => none
    | some l => if l = [] ∨ p ≠ l.getLastD ((0 : ℚ), (0 : ℚ)) then some (l ++ [p]) else some l
  { st with curr := p, lastC2 := none, active := active2 }

/-- The shared shape of each command's inner `while` loop: as long as the
next token is numeric, consume a group of `n1 + 1` numbers and feed it to
the command's handler `f`.  Fuel bounds the iteration count by the token
count (each iteration consumes at least one token). -/
def cmdLoop (n1 : ℕ) (f : List ℚ → FlattenSt → FlattenSt) :
    ℕ → List PathTok → FlattenSt → List PathTok × FlattenSt
  | 0, toks, st => (toks, st)
  | _ + 1, [], st => ([], st)
  | fuel + 1, t :: rest, st =>
      if t.isNum then
        cmdLoop n1 f fuel ((t :: rest).drop (n1 + 1))
          (f (((t :: rest).take (n1 + 1)).map PathTok.val) st)
      else (t :: rest, st)

/-- Handler for the pair groups of `M` (after its first pair) and `L`. -/
def fPairs (isRel : Bool) (args : List ℚ) (st : FlattenSt) : FlattenSt :=
  lineToSt isRel (args.getD 0 0) (args.getD 1 0) st

/-- Handler for `H` groups: note that the source calls
`lineTo(nx - (isRel ? curr[0] : 0), 0)`, so an absolute `H` also moves the
Y coordinate to 0; the embedding reproduces that behaviour. -/
def fH (isRel : Bool) (args : List ℚ) (st : FlattenSt) : FlattenSt :=
  let x := args.getD 0 0
  let nx := if isRel then st.curr.1 + x else x
  let st2 := lineToSt isRel (nx - (if isRel then st.curr.1 else 0)) 0 st
  { st2 with curr := (nx, st2.curr.2) }

/-- Handler for `V` groups (same note as `fH`). -/
def fV (isRel : Bool) (args : List ℚ) (st : FlattenSt) : FlattenSt :=
  let y := args.getD 0 0
  let ny := if isRel then st.curr.2 + y else y
  let st2 := lineToSt isRel 0 (ny - (if isRel then st.curr.2 else 0)) st
  { st2 with curr := (st2.curr.1, ny) }

/-- Handler for `Q` groups. -/
def fQ (ops : RealOps) (tol : ℚ) (maxRec : ℕ) (isRel : Bool)
    (args : List ℚ) (st : FlattenSt) : FlattenSt :=
  let x1 := args.getD 0 0
  let y1 := args.getD 1 0
  let x := args.getD 2 0
  let y := args.getD 3 0
  let c1 : Vec2 := if isRel then (st.curr.1 + x1, st.curr.2 + y1) else (x1, y1)
  let p : Vec2 := if isRel then (st.curr.1 + x, st.curr.2 + y) else (x, y)
  let out := flattenQuad ops.sqrt tol maxRec st.curr c1 p
  { st with active := st.active.map (· ++ out), curr := p, lastC2 := some c1 }

/-- Handler for `T` groups: reflect the previous control point. -/
def fT (ops : RealOps) (tol : ℚ) (maxRec : ℕ) (isRel : Bool)
    (args : List ℚ) (st : FlattenSt) : FlattenSt :=
  let x := args.getD 0 0
  let y := args.getD 1 0
  let p : Vec2 := if isRel then (st.curr.1 + x, st.curr.2 + y) else (x, y)
  let c1 : Vec2 :=
    match st.lastC2 with
    | some l2 => (2 * st.curr.1 - l2.1, 2 * st.curr.2 - l2.2)
    | none => st.curr
  let out := flattenQuad ops.sqrt tol maxRec st.curr c1 p
  { st with active := st.active.map (· ++ out), curr := p, lastC2 := some c1 }

/-- Handler for `C` groups. -/
def fC (ops : RealOps) (tol : ℚ) (maxRec : ℕ) (isRel : Bool)
    (args : List ℚ) (st : FlattenSt) : FlattenSt :=
  let x1 := args.getD 0 0
  let y1 := args.getD 1 0
  let x2 := args.getD 2 0
  let y2 := args.getD 3 0
  let x := args.getD 4 0
  let y := args.getD 5 0
  let c1 : Vec2 := if isRel then (st.curr.1 + x1, st.curr.2 + y1) else (x1, y1)
  let c2 : Vec2 := if isRel then (st.curr.1 + x2, st.curr.2 + y2) else (x2, y2)
  let p : Vec2 := if isRel then (st.curr.1 + x, st.curr.2 + y) else (x, y)
  let out := flattenCubic ops.sqrt tol maxRec st.curr c1 c2 p
  { st with active := st.active.map (· ++ out), curr := p, lastC2 := some c2 }

/-- Handler for `S` groups. -/
def fS (ops : RealOps) (tol : ℚ) (maxRec : ℕ) (isRel : Bool)
    (args : List ℚ) (st : FlattenSt) : FlattenSt :=
  let x2 := args.getD 0 0
  let y2 := args.getD 1 0
  let x := args.getD 2 0
  let y := args.getD 3 0
  let c1 : Vec2 :=
    match st.lastC2 with
    | some l2 => (2 * st.curr.1 - l2.1, 2 * st.curr.2 - l2.2)
    | none => st.curr
  let c2 : Vec2 := if isRel then (st.curr.1 + x2, st.curr.2 + y2) else (x2, y2)
  let p : Vec2 := if isRel then (st.curr.1 + x, st.curr.2 + y) else (x, y)
  let out := flattenCubic ops.sqrt tol maxRec st.curr c1 c2 p
  { st with active := st.active.map (· ++ out), curr := p, lastC2 := some c2 }

/-- Handler for `A` groups. -/
def fA (ops : RealOps) (arcTol : ℚ) (isRel : Bool)
    (args : List ℚ) (st : FlattenSt) : FlattenSt :=
  let rx := args.getD 0 0
  let ry := args.getD 1 0
  let rot := args.getD 2 0
  let largeArc := args.getD 3 0
  let sweep := args.getD 4 0
  let x := args.getD 5 0
  let y := args.getD 6 0
  let p : Vec2 := if isRel then (st.curr.1 + x, st.curr.2 + y) else (x, y)
  let out := flattenArc ops st.curr rx ry (rot * ops.pi / 180)
    (truncZ largeArc) (truncZ sweep) p arcTol
  { st with active := st.active.map (· ++ out), curr := p, lastC2 := none }

/-- The `M` command (paths.ts:156): read one unguarded pair, emit a
pending open contour, start a new active contour, then treat further
pairs as `L`. -/
def handleM (isRel : Bool) (fuel : ℕ) (toks : List PathTok) (st : FlattenSt) :
    List PathTok × FlattenSt :=
  let x := ((toks.take 2).map PathTok.val).getD 0 0
  let y := ((toks.take 2).map PathTok.val).getD 1 0
  let rest := toks.drop 2
  let c : Vec2 := if isRel then (st.curr.1 + x, st.curr.2 + y) else (x, y)
  let contours2 :=
    match st.active with
    | some l => if l ≠ [] then st.contours ++ [⟨l, false⟩] else st.contours
    | none => st.contours
  let st2 : FlattenSt :=
    { st with
        curr := c
        start := c
        contours := contours2
        active := some [c] }
  cmdLoop 1 (fPairs isRel) fuel rest st2

/-- The `Z` command (paths.ts:258): close the active contour (appending
the start point unless already coincident), reset to the contour start. -/
def handleZ (st : FlattenSt) : FlattenSt :=
  match st.active with
  | some l =>
      let l2 :=
        if l ≠ [] ∧ l.headD ((0 : ℚ), (0 : ℚ)) ≠ l.getLastD ((0 : ℚ), (0 : ℚ)) then
          l ++ [l.headD ((0 : ℚ), (0 : ℚ))]
        else l
      { st with contours := st.contours ++ [⟨l2, true⟩], active := none,
                curr := st.start, lastC2 := none }
  | none => { st with curr := st.start, lastC2 := none }

/-- The command dispatch loop of `flattenSVGPath` (paths.ts:137): consume
one token; a number outside a command group is skipped (`continue`), a
letter dispatches on its upper-case form, unrecognised letters are
ignored. -/
def runPath (ops : RealOps) (curveTol arcTol : ℚ) (maxRec : ℕ) :
    ℕ → List PathTok → FlattenSt → FlattenSt
  | 0, _, st => st
  | _ + 1, [], st => st
  | fuel + 1, t :: rest, st =>
      match t with
      | .num _ => runPath ops curveTol arcTol maxRec fuel rest st
      | .cmd ch =>
          let isRel := decide ('a' ≤ ch) && decide (ch ≤ 'z')
          let C := ch.toUpper
          if C = 'M' then
            let r := handleM isRel fuel rest st
            runPath ops curveTol arcTol maxRec fuel r.1 r.2
          else if C = 'L' then
            let r := cmdLoop 1 (fPairs isRel) fuel rest st
            runPath ops curveTol arcTol maxRec fuel r.1 r.2
          else if C = 'H' then
            let r := cmdLoop 0 (fH isRel) fuel rest st
            runPath ops curveTol arcTol maxRec fuel r.1 r.2
          else if C = 'V' then
            let r := cmdLoop 0 (fV isRel) fuel rest st
            runPath ops curveTol arcTol maxRec fuel r.1 r.2
          else if C = 'Q' then
            let r := cmdLoop 3 (fQ ops curveTol maxRec isRel) fuel rest st
            runPath ops curveTol arcTol maxRec fuel r.1 r.2
          else if C = 'T' then
            let r := cmdLoop 1 (fT ops curveTol maxRec isRel) fuel rest st
            runPath ops curveTol arcTol maxRec fuel r.1 r.2
          else if C = 'C' then
            let r := cmdLoop 5 (fC ops curveTol maxRec isRel) fuel rest st
            runPath ops curveTol arcTol maxRec fuel r.1 r.2
          else if C = 'S' then
            let r := cmdLoop 3 (fS ops curveTol maxRec isRel) fuel rest st
            runPath ops curveTol arcTol maxRec fuel r.1 r.2
          else if C = 'A' then
            let r := cmdLoop 6 (fA ops arcTol isRel) fuel rest st
            runPath ops curveTol arcTol maxRec fuel r.1 r.2
          else if C = 'Z' then
            runPath ops curveTol arcTol maxRec fuel rest (handleZ st)
          else
            runPath ops curveTol arcTol maxRec fuel rest st

/-- The deduplication pass of `dedupeClose` (paths.ts:354). -/
def dedupeGo (sq : ℚ → ℚ) : List Vec2 → List Vec2 → List Vec2
  | out, [] => out
  | out, p :: rest =>
      match out.getLast? with
      | none => dedupeGo sq [p] rest
      | some q =>
          if hypotQ sq (p.1 - q.1) (p.2 - q.2) > 1 / 1000 then
            dedupeGo sq (out ++ [p]) rest
          else dedupeGo sq out rest

/-- Source `dedupeClose` (paths.ts:354), with the default `eps = 1e-3`
every caller uses: drop consecutive near-duplicates, then drop a closing
point that repeats the start. -/
def dedupeClose (sq : ℚ → ℚ) (pts : List Vec2) : List Vec2 :=
  let out := dedupeGo sq [] pts
  if 2 < out.length ∧
      hypotQ sq ((out.headD ((0 : ℚ), (0 : ℚ))).1 - (out.getLastD ((0 : ℚ), (0 : ℚ))).1)
        ((out.headD ((0 : ℚ), (0 : ℚ))).2 - (out.getLastD ((0 : ℚ), (0 : ℚ))).2) ≤ 1 / 1000 then
    out.dropLast
  else out

/-- Source `flattenSVGPath` (paths.ts:128) over a token stream, with the
default options `{curveTol := 0.75, arcTol := 0.75, maxRecursion := 10}`
supplied by the caller: run the command loop, emit a pending unterminated
contour as open, and deduplicate every contour. -/
def flattenSVGPath (ops : RealOps) (curveTol arcTol : ℚ) (maxRec : ℕ)
    (toks : List PathTok) : List Contour :=
  let st0 : FlattenSt := ⟨(0, 0), (0, 0), none, none, []⟩
  let st := runPath ops curveTol arcTol maxRec toks.length toks st0
  let contours : List Contour :=
    match st.active with
    | some l => if l ≠ [] then st.contours ++ [⟨l, false⟩] else st.contours
    | none => st.contours
  contours.map (fun c => ⟨dedupeClose ops.sqrt c.pts, c.closed⟩)

/-! ## The scene-node model (the host API the source reads)

A node carries exactly the fields the pipeline reads: `name`, `type`,
`width`/`height` (optional - `Option` models the `'width' in node`
tests), `absoluteTransform`, `vectorPaths` (token streams; empty list
when the node has none) and `children` (`isContainer` models the
`'children' in node` test; non-containers carry `[]`). -/

inductive NodeType where
  | FRAME | GROUP | RECTANGLE | ELLIPSE | TEXT | VECTOR | OTHER
deriving DecidableEq, Repr

inductive SceneNode where
  | mk (name : String) (ntype : NodeType) (width height : Option ℚ)
      (transform : Mat2x3) (vectorPaths : List (List PathTok))
      (isContainer : Bool) (children : List SceneNode)

def SceneNode.name : SceneNode → String
  | .mk n _ _ _ _ _ _ _ => n

def SceneNode.ntype : SceneNode → NodeType
  | .mk _ t _ _ _ _ _ _ => t

def SceneNode.width : SceneNode → Option ℚ
  | .mk _ _ w _ _ _ _ _ => w

def SceneNode.height : SceneNode → Option ℚ
  | .mk _ _ _ h _ _ _ _ => h

def SceneNode.transform : SceneNode → Mat2x3
  | .mk _ _ _ _ m _ _ _ => m

def SceneNode.vectorPaths : SceneNode → List (List PathTok)
  | .mk _ _ _ _ _ v _ _ => v

def SceneNode.isContainer : SceneNode → Bool
  | .mk _ _ _ _ _ _ c _ => c

def SceneNode.children : SceneNode → List SceneNode
  | .mk _ _ _ _ _ _ _ ch => ch

/-! ## Stable sort (the model of `Array.prototype.sort`)

JavaScript's sort is stable; a stable sort under a given comparator is
unique, so insertion sort (inserting each element after all earlier
elements with an equal or larger key) is an exact model of
`arr.sort((a, b) => key(b) - key(a))` - a descending sort by key. -/

def insertDescBy {α : Type} (key : α → ℚ) (x : α) : List α → List α
  | [] => [x]
  | y :: t => if key x > key y then x :: y :: t else y :: insertDescBy key x t

def sortDescBy {α : Type} (key : α → ℚ) (l : List α) : List α :=
  l.foldl (fun acc x => insertDescBy key x acc) []

/-! ## getWorldPolygonVertices (src/geometry/paths.ts:281) -/

/-- The bounding-box area `areaOfBBox` of a contour's points
(paths.ts:304). -/
def areaOfBBox (pts : List Vec2) : ℚ :=
  match pts with
  | [] => 0
  | p :: rest =>
      let minX := rest.foldl (fun acc q => minQ acc q.1) p.1
      let minY := rest.foldl (fun acc q => minQ acc q.2) p.2
      let maxX := rest.foldl (fun acc q => maxQ acc q.1) p.1
      let maxY := rest.foldl (fun acc q => maxQ acc q.2) p.2
      (maxX - minX) * (maxY - minY)

/-- The node-type name used in the error message of
`getWorldPolygonVertices`. -/
def nodeTypeName : NodeType → String
  | .FRAME => "FRAME"
  | .GROUP => "GROUP"
  | .RECTANGLE => "RECTANGLE"
  | .ELLIPSE => "ELLIPSE"
  | .TEXT => "TEXT"
  | .VECTOR => "VECTOR"
  | .OTHER => "OTHER"

/-- Source `getWorldPolygonVertices` (paths.ts:281), at the default
tolerance options every caller of the repository uses.  Vector sources:
flatten every path, transform the contours to world space, then prefer
the closed contour (≥ 3 points) with the largest bounding-box area and
otherwise the longest contour; rectangles, frames and groups yield their
four corners; ellipses an adaptive polygon; anything else throws.
The source's `areaOfBBox` on an empty list yields `Infinity * -Infinity`;
the model returns 0 (the filter guarantees ≥ 3 points, so the case is
unreachable for the sorted closed contours). -/
def getWorldPolygonVertices (ops : RealOps) (node : SceneNode) :
    Except String (List Vec2) :=
  if node.vectorPaths ≠ [] then
    let m := node.transform
    let contours := node.vectorPaths.flatMap (flattenSVGPath ops (3 / 4) (3 / 4) 10)
    if contours = [] then .ok []
    else
      let worldContours : List Contour :=
        contours.map (fun c => ⟨c.pts.map (fun p => applyToPoint m p.1 p.2), c.closed⟩)
      let closed := worldContours.filter (fun c => c.closed && decide (3 ≤ c.pts.length))
      if closed ≠ [] then
        let sorted := sortDescBy (fun c => areaOfBBox c.pts) closed
        .ok (dedupeClose ops.sqrt ((sorted.headD ⟨[], false⟩).pts))
      else
        let sorted := sortDescBy (fun c => ((c.pts.length : ℚ))) worldContours
        .ok (dedupeClose ops.sqrt ((sorted.headD ⟨[], false⟩).pts))
  else if node.ntype = .RECTANGLE ∨ node.ntype = .FRAME ∨ node.ntype = .GROUP then
    let m := node.transform
    let w := node.width.getD 0
    let h := node.height.getD 0
    .ok [applyToPoint m 0 0, applyToPoint m w 0, applyToPoint m w h, applyToPoint m 0 h]
  else if node.ntype = .ELLIPSE then
    let m := node.transform
    let w := node.width.getD 0
    let h := node.height.getD 0
    let rx := w / 2
    let ry := h / 2
    let tol : ℚ := 3 / 4
    let rMax := maxQ rx ry
    let maxDelta := 2 * ops.acos (maxQ (-1) (minQ 1 (1 - tol / maxQ rMax (1 / 1000000))))
    let step := if maxDelta > 1 / 1000 then maxDelta else ops.pi / 12
    let segs := max 12 (Int.ceil (2 * ops.pi / step)).toNat
    let verts := (List.range segs).map (fun (i : ℕ) =>
      let t := ((i : ℚ) / (segs : ℚ)) * ops.pi * 2
      applyToPoint m (rx + rx * ops.cos t) (ry + ry * ops.sin t))
    .ok (dedupeClose ops.sqrt verts)
  else
    .error ("Unsupported vector source for node type " ++ nodeTypeName node.ntype)


/-! ## Node-level transform helpers (src/geometry/transforms.ts 27-67) -/

/-- Source `getNodeCenterInWorld` (transforms.ts:45): `'width' in node`
yields the width, otherwise 0. -/
def getNodeCenterInWorld (node : SceneNode) : Vec2 :=
  applyToPoint node.transform (node.width.getD 0 / 2) (node.height.getD 0 / 2)

/-- Source `getNodeRotation` (transforms.ts:52). -/
def getNodeRotation (ops : RealOps) (node : SceneNode) : ℚ :=
  getRotationFromMatrix ops node.transform

/-- Source `figmaWorldToLevelLocal` (transforms.ts:27). -/
def figmaWorldToLevelLocal (p : Vec2) (levelFrame : SceneNode) : Vec2 :=
  (p.1 - levelFrame.transform.m02, p.2 - levelFrame.transform.m12)

/-- Source `toRapierFromFigmaWorld` (transforms.ts:39). -/
def toRapierFromFigmaWorld (p : Vec2) (levelFrame : SceneNode) : Vec2 :=
  tlToCenterYUp (figmaWorldToLevelLocal p levelFrame)
    (levelFrame.width.getD 0) (levelFrame.height.getD 0)

/-- Source `getPositionWithAnchorAdjustment` (transforms.ts:56). -/
def getPositionWithAnchorAdjustment (node relativeTo : SceneNode) : Vec2 :=
  toRapierFromFigmaWorld (getNodeCenterInWorld node) relativeTo

/-- Source `localOffsetBetween` (transforms.ts:62). -/
def localOffsetBetween (nodeA nodeB level : SceneNode) : Vec2 :=
  subV (getPositionWithAnchorAdjustment nodeA level)
    (getPositionWithAnchorAdjustment nodeB level)

/-- Source `localOffsetToAnchor` (builders.ts:333). -/
def localOffsetToAnchor (node : SceneNode) (anchorRapier : Vec2)
    (level : SceneNode) : Vec2 :=
  subV (getPositionWithAnchorAdjustment node level) anchorRapier

/-! ## Document model (src/types.ts, the unnamed types module) -/

inductive BodyType where
  | Static | Dynamic | Kinematic
deriving DecidableEq, Repr

inductive ColliderData where
  | Cuboid (position : Vec2) (rotation : ℚ) (size : Vec2)
  | Ball (position : Vec2) (rotation : ℚ) (radius : ℚ)
  | ConvexHull (position : Vec2) (rotation : ℚ) (vertices : List Vec2)
  | Polyline (position : Vec2) (rotation : ℚ) (vertices : List Vec2)
  | Trimesh (position : Vec2) (rotation : ℚ) (triVertices : List Vec2)
      (triIndices : List ℕ)
  | Compound (position : Vec2) (rotation : ℚ) (children : List ColliderData)

structure GameObjectData where
  name : String
  position : Vec2
  rotation : ℚ
  collider : Option ColliderData
  bodyType : BodyType
  customParams : List (String × String)

/-- A reference to the single run reporter's mutable accumulators
(`reporter.warnings` / `reporter.stats`).  Every level a run produces
stores the same references into its `meta`; `resolveWarnings` reads such
a reference against the state of the log. -/
inductive WarnRef where
  | reporter
deriving DecidableEq, Repr

structure MetaData where
  version : String
  timestamp : String
  warningsRef : WarnRef
  statsRef : WarnRef
  units : ℚ

structure LevelData where
  name : String
  width : ℚ
  height : ℚ
  gameObjects : List GameObjectData
  meta : MetaData

/-! ## Reporter (src/export/reporter.ts) and the effect model

The reporter of the source is write-only shared mutable state (`warn`
pushes a message and forwards it to the UI channel, `bump` increments a
per-kind counter; `stats.levels` / `stats.gameObjects` are never
written); exceptions propagate until the per-object `try` of the scanner.
`Res α` is the writer/exception embedding of both effects: the log
accumulates in sequence order and is kept when an exception passes
through, exactly as mutations to the shared reporter persist past a
throw. -/

structure Log where
  warnings : List String
  /-- The multiset of `reporter.bump(kind)` calls, in order; the count of
  `kind` in it is `stats.colliders[kind]`. -/
  bumps : List String
deriving DecidableEq, Repr

def Log.nil : Log := ⟨[], []⟩

def Log.cat (a b : Log) : Log := ⟨a.warnings ++ b.warnings, a.bumps ++ b.bumps⟩

/-- `stats.colliders[kind]` after the run: how often `kind` was bumped
(an absent key reads as count 0). -/
def Log.colliderCount (l : Log) (kind : String) : ℕ := l.bumps.count kind

/-- Resolve a stored reference against the final log. -/
def resolveWarnings (log : Log) : WarnRef → List String
  | .reporter => log.warnings

def Res (α : Type) : Type := Log × Except String α

def rok {α : Type} (a : α) : Res α := (Log.nil, Except.ok a)

def rthrow {α : Type} (e : String) : Res α := (Log.nil, Except.error e)

def rbind {α β : Type} (m : Res α) (f : α → Res β) : Res β :=
  match m with
  | (l, Except.error e) => (l, Except.error e)
  | (l, Except.ok a) =>
      let r := f a
      (l.cat r.1, r.2)

def rwarn (msg : String) : Res Unit := (⟨[msg], []⟩, Except.ok ())

def rbump (kind : String) : Res Unit := (⟨[], [kind]⟩, Except.ok ())

def rlift {α : Type} (e : Except String α) : Res α := (Log.nil, e)

/-! ## Scene walks (src/export/scanner.ts, builders.ts) -/

/-- Source `findLevelBlocks` (scanner.ts:42): every FRAME named
`LevelBlock:*`, anywhere in the forest, in document order (a node before
the finds inside it). -/
def findLevelBlocks : List SceneNode → List SceneNode
  | [] => []
  | SceneNode.mk nm ty w h tr vp ic ch :: rest =>
      (if ty = NodeType.FRAME ∧ strStarts nm "LevelBlock:" then
        [SceneNode.mk nm ty w h tr vp ic ch]
      else []) ++
      (if ic then findLevelBlocks ch else []) ++
      findLevelBlocks rest

/-- The `walk` of source `findGameObjects` (scanner.ts:51): every GROUP
named `GameObject:*` in the forest. -/
def findGameObjectsAux : List SceneNode → List SceneNode
  | [] => []
  | SceneNode.mk nm ty w h tr vp ic ch :: rest =>
      (if ty = NodeType.GROUP ∧ strStarts nm "GameObject:" then
        [SceneNode.mk nm ty w h tr vp ic ch]
      else []) ++
      (if ic then findGameObjectsAux ch else []) ++
      findGameObjectsAux rest

/-- Source `findGameObjects` (scanner.ts:51), over a level's subtree. -/
def findGameObjects (level : SceneNode) : List SceneNode :=
  findGameObjectsAux level.children

/-- The `walk` of source `collectColliderDescendants` (builders.ts:215):
every node in the forest whose trimmed name starts `Collider:`. -/
def collectColliderAux : List SceneNode → List SceneNode
  | [] => []
  | SceneNode.mk nm ty w h tr vp ic ch :: rest =>
      (if strStarts (strTrim nm) "Collider:" then
        [SceneNode.mk nm ty w h tr vp ic ch]
      else []) ++
      (if ic then collectColliderAux ch else []) ++
      collectColliderAux rest

/-- Source `collectColliderDescendants` (builders.ts:215). -/
def collectColliderDescendants (root : SceneNode) : List SceneNode :=
  if root.isContainer then collectColliderAux root.children else []

/-- Source `colliderLeafNodes` (builders.ts:287): the collider
descendants that are not themselves `Collider:Compound` wrappers. -/
def colliderLeafNodes (root : SceneNode) : List SceneNode :=
  (collectColliderDescendants root).filter (fun n => !testCompoundName n.name)

/-! ## Polygon decomposition (src/geometry/polygons.ts decomposeIfNeeded) -/

/-- Source `decomposeIfNeeded` (polygons.ts:128): skip when convex or at
most a triangle (note: this uses the tolerance-free `isConvex`); feed a
CCW list to `quickDecomp`; on a thrown exception or an empty result fall
back to the original polygon (a `console.warn`, not a reporter warning,
accompanies the thrown case). -/
def decomposeIfNeeded (ops : RealOps) (vertices : List Vec2) : List (List Vec2) :=
  if vertices.length ≤ 3 ∨ isConvex vertices then [ensureClockwise vertices]
  else
    match ops.quickDecomp (ensureCCW vertices) with
    | Except.error _ => [ensureClockwise vertices]
    | Except.ok decompPolys =>
        if decompPolys = [] then [ensureClockwise vertices]
        else decompPolys.map ensureClockwise

/-! ## Entity builders (src/export/builders.ts) -/

/-- Source `findBodyType` (builders.ts:25): the first TEXT child named
`BodyType:<valid>`. -/
def findBodyType : List SceneNode → Option BodyType
  | [] => none
  | n :: rest =>
      if n.ntype = NodeType.TEXT ∧ strStarts n.name "BodyType:" then
        let t := strTrim (stripStart n.name "BodyType:")
        if t = "Static" then some BodyType.Static
        else if t = "Dynamic" then some BodyType.Dynamic
        else if t = "Kinematic" then some BodyType.Kinematic
        else findBodyType rest
      else findBodyType rest

/-- One `CustomParam:key:value` name parsed: the key before the first
colon of the remainder (which must not be empty), the value after it. -/
def parseCustomParam (nm : String) : Option (String × String) :=
  let rest := strTrim (stripStart nm "CustomParam:")
  let d := rest.data
  let i := d.findIdx (fun c => c = ':')
  if 0 < i ∧ i < d.length then
    some (strTrim (String.mk (d.take i)), strTrim (String.mk (d.drop (i + 1))))
  else none

/-- Source `findCustomParams` (builders.ts:35) over the direct children;
the source stores into an object, so a later entry with the same key
overrides an earlier one - `paramLookup` reads accordingly. -/
def findCustomParams : List SceneNode → List (String × String)
  | [] => []
  | n :: rest =>
      (if n.ntype = NodeType.TEXT ∧ strStarts n.name "CustomParam:" then
        (parseCustomParam n.name).toList
      else []) ++ findCustomParams rest

/-- Read a custom parameter: the last write wins, as in the source's
object assignment. -/
def paramLookup (ps : List (String × String)) (k : String) : Option String :=
  (ps.reverse.find? (fun p => p.1 = k)).map (fun p => p.2)

/-- Source `colliderWorldPointsRapier` (builders.ts:293): all leaves'
world polygon vertices mapped to Rapier coordinates; an exception from
`getWorldPolygonVertices` propagates. -/
def colliderWorldPointsRapier (ops : RealOps) :
    List SceneNode → SceneNode → Except String (List Vec2)
  | [], _ => Except.ok []
  | n :: rest, level => do
      let worldVertsTL ← getWorldPolygonVertices ops n
      let tail ← colliderWorldPointsRapier ops rest level
      Except.ok (worldVertsTL.map (fun p => toRapierFromFigmaWorld p level) ++ tail)

/-- Source `aabbCenter` (builders.ts:302); the source initialises the
bounds at `±Infinity` and every caller guards against an empty point
list, so the model folds from the first point (and returns `(0, 0)` on
the unreachable empty list). -/
def aabbCenter (points : List Vec2) : Vec2 :=
  match points with
  | [] => (0, 0)
  | p :: rest =>
      let minX := rest.foldl (fun acc q => minQ acc q.1) p.1
      let minY := rest.foldl (fun acc q => minQ acc q.2) p.2
      let maxX := rest.foldl (fun acc q => maxQ acc q.1) p.1
      let maxY := rest.foldl (fun acc q => maxQ acc q.2) p.2
      ((minX + maxX) / 2, (minY + maxY) / 2)

/-- Source `computeRigidBodyCenter` (builders.ts:311): the AABB center of
the world points of all collider leaves (explicit `Collider:Compound`
children flattened to their leaves), with the object's visual center as
the fallback when there are no collider children or no points. -/
def computeRigidBodyCenter (ops : RealOps) (go level : SceneNode) :
    Except String Vec2 :=
  let directColliders := go.children.filter (fun n => strStarts (strTrim n.name) "Collider:")
  if directColliders.length = 0 then Except.ok (getPositionWithAnchorAdjustment go level)
  else do
    let leaves := directColliders.flatMap (fun c =>
      if testCompoundName c.name then colliderLeafNodes c else [c])
    let pts ← colliderWorldPointsRapier ops leaves level
    if pts.length = 0 then Except.ok (getPositionWithAnchorAdjustment go level)
    else Except.ok (aabbCenter pts)

mutual

/-- A computable tree size of a node, used as recursion fuel for
explicit-compound nesting (an upper bound on any descendant chain). -/
def nodeFuel : SceneNode → ℕ
  | SceneNode.mk _ _ _ _ _ _ _ ch => 1 + nodeFuelList ch

def nodeFuelList : List SceneNode → ℕ
  | [] => 0
  | n :: rest => nodeFuel n + nodeFuelList rest

end

mutual

/-- Source `buildChildRelativeToParent` (builders.ts:230): build one
collider descendant relative to its enclosing compound's frame.  No
branch of it bumps the reporter's collider statistics.  Fuel bounds the
nesting depth of explicit compounds; callers pass `nodeFuel` of the node,
which the recursion (into proper descendants) can never exhaust, and an
exhausted recursion is modelled as the stack overflow it would be. -/
def buildChildRelativeToParent (ops : RealOps) :
    ℕ → SceneNode → SceneNode → SceneNode → Res (Option ColliderData)
  | 0, _, _, _ => rthrow "Maximum call stack size exceeded"
  | fuel + 1, child, parent, level =>
      if ¬ strStarts (strTrim child.name) "Collider:" then rok none
      else
        let ty := strTrim (stripStart child.name "Collider:")
        let position := localOffsetBetween child parent level
        let rotation := getNodeRotation ops child - getNodeRotation ops parent
        if ty = "Cuboid" then
          match child.width, child.height with
          | some w, some h => rok (some (ColliderData.Cuboid position rotation (w, h)))
          | _, _ => rbind (rwarn (child.name ++ " missing width/height.")) fun _ => rok none
        else if ty = "Ball" then
          match child.width, child.height with
          | some w, some h =>
              rok (some (ColliderData.Ball position rotation ((w + h) * (1 / 4))))
          | _, _ => rbind (rwarn (child.name ++ " missing width/height.")) fun _ => rok none
        else if ty = "Convex" then
          rbind (rlift (getWorldPolygonVertices ops child)) fun worldVertsTL =>
          let vertsRapier := worldVertsTL.map (fun p => toRapierFromFigmaWorld p level)
          rok (some (ColliderData.ConvexHull position rotation
            (centerVertices (ensureClockwise vertsRapier)).2))
        else if ty = "Trimesh" then
          rbind (rlift (getWorldPolygonVertices ops child)) fun worldVertsTL =>
          let vertsRapier := worldVertsTL.map (fun p => toRapierFromFigmaWorld p level)
          let vertices := (centerVertices (ensureClockwise vertsRapier)).2
          rok (some (ColliderData.Trimesh position rotation vertices
            (triangulateConcave vertices).2))
        else if ty = "Polyline" then
          rbind (rlift (getWorldPolygonVertices ops child)) fun worldVertsTL =>
          let vertsRapier := worldVertsTL.map (fun p => toRapierFromFigmaWorld p level)
          rok (some (ColliderData.Polyline position rotation
            (centerVertices vertsRapier).2))
        else if ty = "Compound" then
          rbind (buildChildList ops fuel (collectColliderDescendants child) child level)
            fun built =>
          rok (some (ColliderData.Compound position rotation (built.filterMap id)))
        else
          rbind (rwarn ("Unsupported collider type: " ++ ty)) fun _ => rok none

/-- The `.map(...)` over a compound's collider descendants: sequential,
an exception aborts the rest (as a thrown exception aborts
`Array.prototype.map`). -/
def buildChildList (ops : RealOps) :
    ℕ → List SceneNode → SceneNode → SceneNode → Res (List (Option ColliderData))
  | _, [], _, _ => rok []
  | fuel, c :: rest, parent, level =>
      rbind (buildChildRelativeToParent ops fuel c parent level) fun o =>
      rbind (buildChildList ops fuel rest parent level) fun os =>
      rok (o :: os)

end

/-- Source `buildSingleCollider` (builders.ts:68): dispatch on the
`Collider:<Kind>` tag of the node's name; every successful branch bumps
its collider kind. -/
def buildSingleCollider (ops : RealOps) (node go level : SceneNode)
    (anchor : Vec2) : Res (Option ColliderData) :=
  if ¬ strStarts node.name "Collider:" then rok none
  else
    let ty := strTrim (stripStart node.name "Collider:")
    let localRot := getNodeRotation ops node - getNodeRotation ops go
    if ty = "Cuboid" then
      match node.width, node.height with
      | some w, some h =>
          let position := localOffsetToAnchor node anchor level
          rbind (rbump "Cuboid") fun _ =>
          rok (some (ColliderData.Cuboid position localRot (w, h)))
      | _, _ => rbind (rwarn (node.name ++ " missing width/height.")) fun _ => rok none
    else if ty = "Ball" then
      match node.width, node.height with
      | some w, some h =>
          let radius := (w + h) * (1 / 4)
          let position := localOffsetToAnchor node anchor level
          rbind (rbump "Ball") fun _ =>
          rok (some (ColliderData.Ball position localRot radius))
      | _, _ => rbind (rwarn (node.name ++ " missing width/height.")) fun _ => rok none
    else if ty = "Convex" then
      rbind (rlift (getWorldPolygonVertices ops node)) fun worldVertsTL =>
      let vertsRapierWorld := worldVertsTL.map (fun p => toRapierFromFigmaWorld p level)
      let goRot := getNodeRotation ops go
      let vertsRBLocal := vertsRapierWorld.map (fun v => toGoLocal ops v anchor goRot)
      let cw := ensureClockwise vertsRBLocal
      let polyCenter := (centerVertices cw).1
      let centered := (centerVertices cw).2
      if ¬ (isConvexSafe centered = true) ∧ 3 < centered.length then
        let parts := decomposeIfNeeded ops centered
        let children := parts.map (fun part =>
          ColliderData.ConvexHull (centerVertices part).1 0
            (ensureClockwise (centerVertices part).2))
        rbind (rbump "Compound") fun _ =>
        rok (some (ColliderData.Compound polyCenter 0 children))
      else
        rbind (rbump "ConvexHull") fun _ =>
        rok (some (ColliderData.ConvexHull polyCenter 0 centered))
    else if ty = "Trimesh" then
      rbind (rlift (getWorldPolygonVertices ops node)) fun worldVertsTL =>
      let vertsRapierWorld := worldVertsTL.map (fun p => toRapierFromFigmaWorld p level)
      let goRot := getNodeRotation ops go
      let vertsRBLocal := vertsRapierWorld.map (fun v => toGoLocal ops v anchor goRot)
      let cw := ensureClockwise vertsRBLocal
      let center := (centerVertices cw).1
      let vertices := (centerVertices cw).2
      rbind (rbump "Trimesh") fun _ =>
      rok (some (ColliderData.Trimesh center 0 vertices (triangulateConcave vertices).2))
    else if ty = "Polyline" then
      rbind (rlift (getWorldPolygonVertices ops node)) fun worldVertsTL =>
      let vertsRapierWorld := worldVertsTL.map (fun p => toRapierFromFigmaWorld p level)
      let goRot := getNodeRotation ops go
      let vertsRBLocal := vertsRapierWorld.map (fun v => toGoLocal ops v anchor goRot)
      rbind (rbump "Polyline") fun _ =>
      rok (some (ColliderData.Polyline (centerVertices vertsRBLocal).1 0
        (centerVertices vertsRBLocal).2))
    else if ty = "Compound" then
      if ¬ (node.isContainer = true) then
        rbind (rwarn "Compound collider must be Group/Frame.") fun _ => rok none
      else
        let colliderDescendants := collectColliderDescendants node
        rbind (if colliderDescendants.length = 0 then
            rwarn (node.name ++ " has no Collider:* descendants.")
          else rok ()) fun _ =>
        rbind (buildChildList ops (nodeFuel node) colliderDescendants node level)
          fun built =>
        let localPos := localOffsetToAnchor node anchor level
        let localRot2 := getNodeRotation ops node - getNodeRotation ops go
        rbind (rbump "Compound") fun _ =>
        rok (some (ColliderData.Compound localPos localRot2 (built.filterMap id)))
    else if ty = "SimplifiedConvex" then
      rbind (rlift (getWorldPolygonVertices ops node)) fun worldVertsTL =>
      let vertsRapierWorld := worldVertsTL.map (fun p => toRapierFromFigmaWorld p level)
      let goRot := getNodeRotation ops go
      let vertsRBLocal := vertsRapierWorld.map (fun v => toGoLocal ops v anchor goRot)
      let params := findCustomParams go.children
      let eps := match paramLookup params "simplifyEpsilon" with
        | some sEps => ops.parseFloatQ sEps
        | none => 3 / 2
      let maxPts := (paramLookup params "simplifyMaxPoints").map ops.parseIntQ
      let simplifiedCW := simplifyPolygon ops.sqrt vertsRBLocal ⟨some eps, maxPts⟩
      let polyCenter := (centerVertices simplifiedCW).1
      let centered := (centerVertices simplifiedCW).2
      if ¬ (isConvexSafe centered = true) ∧ 3 < centered.length then
        let parts := decomposeIfNeeded ops centered
        let children := parts.map (fun part =>
          ColliderData.ConvexHull (centerVertices part).1 0
            (ensureClockwise (centerVertices part).2))
        rbind (rbump "Compound") fun _ =>
        rok (some (ColliderData.Compound polyCenter 0 children))
      else
        rbind (rbump "ConvexHull") fun _ =>
        rok (some (ColliderData.ConvexHull polyCenter 0 centered))
    else
      rbind (rwarn ("Unsupported collider type: " ++ ty)) fun _ => rok none

/-- The `.map(n => buildSingleCollider(...))` of `buildCollider`:
sequential, an exception aborts the rest. -/
def buildSingleList (ops : RealOps) :
    List SceneNode → SceneNode → SceneNode → Vec2 → Res (List (Option ColliderData))
  | [], _, _, _ => rok []
  | n :: rest, go, level, anchor =>
      rbind (buildSingleCollider ops n go level anchor) fun o =>
      rbind (buildSingleList ops rest go level anchor) fun os =>
      rok (o :: os)

/-- Source `buildCollider` (builders.ts:50): no collider child warns and
yields null; two or more are built in child order, the successes wrapped
in an implicit `Compound` at position `[0,0]`, rotation 0; exactly one is
built directly. -/
def buildCollider (ops : RealOps) (go level : SceneNode) (anchor : Vec2) :
    Res (Option ColliderData) :=
  let colliders := go.children.filter (fun n => strStarts n.name "Collider:")
  match colliders with
  | [] =>
      rbind (rwarn ("GameObject " ++ go.name ++ " has no Collider:* node.")) fun _ =>
      rok none
  | [c] => buildSingleCollider ops c go level anchor
  | _ :: _ :: _ =>
      rbind (buildSingleList ops colliders go level anchor) fun built =>
      rbind (rbump "Compound") fun _ =>
      rok (some (ColliderData.Compound (0, 0) 0 (built.filterMap id)))

/-- Source `buildGameObject` (builders.ts:9). -/
def buildGameObject (ops : RealOps) (go level : SceneNode) : Res GameObjectData :=
  let nm := strTrim (stripStart go.name "GameObject:")
  rbind (rlift (computeRigidBodyCenter ops go level)) fun rbCenter =>
  let rotation := getNodeRotation ops go
  let bodyType := (findBodyType go.children).getD BodyType.Static
  let customParams := findCustomParams go.children
  rbind (buildCollider ops go level rbCenter) fun collider =>
  rok { name := nm, position := rbCenter, rotation := rotation,
        collider := collider, bodyType := bodyType, customParams := customParams }

/-! ## Level scaling (the unnamed scanner module, `scaleCollider` /
`scaleLevel`) -/

/-- Source `svec` (scale a vector). -/
def svec (v : Vec2) (s : ℚ) : Vec2 := (v.1 * s, v.2 * s)

/-- Source `sverts` (scale a vertex list). -/
def sverts (vs : List Vec2) (s : ℚ) : List Vec2 := vs.map (fun v => svec v s)

mutual

/-- Source `scaleCollider`: scale position and, per kind, size / radius /
vertices; `Trimesh` indices pass through untouched; `Compound` children
recursively.  (The source's `default: return c` is unreachable over the
typed collider model.) -/
def scaleCollider : ColliderData → ℚ → ColliderData
  | ColliderData.Cuboid p r size, s => ColliderData.Cuboid (svec p s) r (svec size s)
  | ColliderData.Ball p r radius, s => ColliderData.Ball (svec p s) r (radius * s)
  | ColliderData.ConvexHull p r vs, s => ColliderData.ConvexHull (svec p s) r (sverts vs s)
  | ColliderData.Polyline p r vs, s => ColliderData.Polyline (svec p s) r (sverts vs s)
  | ColliderData.Trimesh p r vs idx, s => ColliderData.Trimesh (svec p s) r (sverts vs s) idx
  | ColliderData.Compound p r ch, s => ColliderData.Compound (svec p s) r (scaleColliderList ch s)

def scaleColliderList : List ColliderData → ℚ → List ColliderData
  | [], _ => []
  | c :: rest, s => scaleCollider c s :: scaleColliderList rest s

end

/-- Source `scaleLevel`: width, height, every object position and every
collider scaled; `meta` is spread, which copies the references to the
reporter's arrays unchanged (`units` is always present in this version of
the scanner, so its `?? ...` fallback never fires). -/
def scaleLevel (level : LevelData) (s : ℚ) : LevelData :=
  { level with
      width := level.width * s
      height := level.height * s
      gameObjects := level.gameObjects.map (fun go =>
        { go with
            position := svec go.position s
            collider := go.collider.map (fun c => scaleCollider c s) }) }

/-! ## Level scanner (the unnamed scanner module `exportLevels`, the
newer variant of src/export/scanner.ts that takes `ppm` and scales) -/

/-- A page of the host document: its node forest and the current
selection. -/
structure Page where
  children : List SceneNode
  selection : List SceneNode

/-- The per-object loop of `exportLevels`: build each GameObject inside
`try`; a thrown exception is converted to a warning and that object is
skipped; the loop continues with the remaining objects.  (The
`figma.ui.postMessage` progress notification and the cooperative yield
carry no data and are not modelled.) -/
def processGOs (ops : RealOps) (level : SceneNode) :
    List SceneNode → Res (List GameObjectData)
  | [] => rok []
  | go :: rest =>
      let r := buildGameObject ops go level
      match r with
      | (lg, Except.ok g) =>
          let rr := processGOs ops level rest
          (lg.cat rr.1, rr.2.map (fun gs => g :: gs))
      | (lg, Except.error e) =>
          let w : Log := ⟨["Failed to build GameObject " ++ go.name ++ ": " ++ e], []⟩
          let rr := processGOs ops level rest
          ((lg.cat w).cat rr.1, rr.2)

/-- The per-level loop of `exportLevels`: assemble the level record (its
`meta` holding the shared reporter references and the `units` chosen),
warn when the level has no GameObject group, process the objects, then
scale the whole level by `s = 1 / (ppm || 1)`. -/
def processLevels (ops : RealOps) (ppm : ℚ) :
    List SceneNode → Res (List LevelData)
  | [] => rok []
  | level :: rest =>
      let nm := strTrim (stripStart level.name "LevelBlock:")
      let gameObjects := findGameObjects level
      rbind (if gameObjects.length = 0 then
          rwarn ("Level " ++ nm ++ " has no GameObject groups.")
        else rok ()) fun _ =>
      rbind (processGOs ops level gameObjects) fun gos =>
      let levelData : LevelData :=
        { name := nm
          width := level.width.getD 0
          height := level.height.getD 0
          gameObjects := gos
          meta :=
            { version := "1.0.0"
              timestamp := ops.nowISO
              warningsRef := WarnRef.reporter
              statsRef := WarnRef.reporter
              units := ppm } }
      let s := 1 / (if ppm = 0 then 1 else ppm)
      rbind (processLevels ops ppm rest) fun restLevels =>
      rok (scaleLevel levelData s :: restLevels)

/-- Source `exportLevels(ppm)` (the unnamed scanner module): pick the
selected `LevelBlock:` frames when a selection exists, otherwise every
discovered level block, and process them in order with one shared
reporter. -/
def exportLevels (ops : RealOps) (page : Page) (ppm : ℚ) : Res (List LevelData) :=
  let levels := findLevelBlocks page.children
  let picked :=
    if page.selection.length ≠ 0 then
      page.selection.filter (fun n => strStarts n.name "LevelBlock:")
    else levels
  processLevels ops ppm picked

/-! ## The plugin entry (the unnamed ui-thread module): the
pixels-per-unit guard -/

/-- A JavaScript number as `Number(msg.ppm)` can produce it. -/
inductive JsNum where
  | nan
  | posInf
  | negInf
  | fin (q : ℚ)

def JsNum.isFinite : JsNum → Bool
  | .fin _ => true
  | _ => false

/-- Source guard `Number.isFinite(ppmRaw) && ppmRaw > 0 ? ppmRaw : 1`. -/
def normalizePpu : JsNum → ℚ
  | JsNum.fin q => if 0 < q then q else 1
  | _ => 1

/-- The `export` message handler composed with the scanner. -/
def handleExport (ops : RealOps) (page : Page) (ppmRaw : JsNum) :
    Res (List LevelData) :=
  exportLevels ops page (normalizePpu ppmRaw)

/-! ## C3: the pixels-per-unit scale -/

/-- The spec's description of collider scaling, stated from its words
("recursively every collider's position/size/radius/vertices multiplied
by `s` (Compound children scaled recursively), while Trimesh triangle
indices are left unchanged"), to be compared with the source
`scaleCollider`. -/
inductive SpecScaled (s : ℚ) : ColliderData → ColliderData → Prop where
  | cuboid (p : Vec2) (r : ℚ) (sz : Vec2) :
      SpecScaled s (ColliderData.Cuboid p r sz)
        (ColliderData.Cuboid (p.1 * s, p.2 * s) r (sz.1 * s, sz.2 * s))
  | ball (p : Vec2) (r radius : ℚ) :
      SpecScaled s (ColliderData.Ball p r radius)
        (ColliderData.Ball (p.1 * s, p.2 * s) r (radius * s))
  | convexHull (p : Vec2) (r : ℚ) (vs : List Vec2) :
      SpecScaled s (ColliderData.ConvexHull p r vs)
        (ColliderData.ConvexHull (p.1 * s, p.2 * s) r
          (vs.map (fun v => (v.1 * s, v.2 * s))))
  | polyline (p : Vec2) (r : ℚ) (vs : List Vec2) :
      SpecScaled s (ColliderData.Polyline p r vs)
        (ColliderData.Polyline (p.1 * s, p.2 * s) r
          (vs.map (fun v => (v.1 * s, v.2 * s))))
  | trimesh (p : Vec2) (r : ℚ) (vs : List Vec2) (idx : List ℕ) :
      SpecScaled s (ColliderData.Trimesh p r vs idx)
        (ColliderData.Trimesh (p.1 * s, p.2 * s) r
          (vs.map (fun v => (v.1 * s, v.2 * s))) idx)
  | compound (p : Vec2) (r : ℚ) (ch ch2 : List ColliderData) :
      List.Forall₂ (SpecScaled s) ch ch2 →
      SpecScaled s (ColliderData.Compound p r ch)
        (ColliderData.Compound (p.1 * s, p.2 * s) r ch2)

mutual

theorem specScaled_scaleCollider (s : ℚ) (c : ColliderData) :
    SpecScaled s c (scaleCollider c s) := by
  cases c with
  | Cuboid p r size => exact SpecScaled.cuboid p r size
  | Ball p r radius => exact SpecScaled.ball p r radius
  | ConvexHull p r vs => exact SpecScaled.convexHull p r vs
  | Polyline p r vs => exact SpecScaled.polyline p r vs
  | Trimesh p r vs idx => exact SpecScaled.trimesh p r vs idx
  | Compound p r ch =>
      exact SpecScaled.compound p r ch _ (specScaledList s ch)

theorem specScaledList (s : ℚ) (cs : List ColliderData) :
    List.Forall₂ (SpecScaled s) cs (scaleColliderList cs s) := by
  cases cs with
  | nil => exact List.Forall₂.nil
  | cons c rest =>
      exact List.Forall₂.cons (specScaled_scaleCollider s c) (specScaledList s rest)

end

mutual

theorem scaleCollider_one (c : ColliderData) : scaleCollider c 1 = c := by
  cases c with
  | Cuboid p r size => simp [scaleCollider, svec]
  | Ball p r radius => simp [scaleCollider, svec]
  | ConvexHull p r vs => simp [scaleCollider, svec, sverts]
  | Polyline p r vs => simp [scaleCollider, svec, sverts]
  | Trimesh p r vs idx => simp [scaleCollider, svec, sverts]
  | Compound p r ch => simp [scaleCollider, svec, scaleColliderList_one ch]

theorem scaleColliderList_one (cs : List ColliderData) :
    scaleColliderList cs 1 = cs := by
  cases cs with
  | nil => rfl
  | cons c rest =>
      simp [scaleColliderList, scaleCollider_one c, scaleColliderList_one rest]

end

theorem scaleLevel_one (lvl : LevelData) : scaleLevel lvl 1 = lvl := by
  unfold scaleLevel
  have hgo : ∀ go : GameObjectData,
      ({ go with
          position := svec go.position 1
          collider := go.collider.map (fun c => scaleCollider c 1) }) = go := by
    intro go
    have h1 : svec go.position 1 = go.position := by simp [svec]
    have h2 : go.collider.map (fun c => scaleCollider c 1) = go.collider := by
      cases go.collider with
      | none => rfl
      | some c => simp [scaleCollider_one]
    rw [h1, h2]
  simp [hgo]

theorem rbind_ok_iff {α β : Type} (m : Res α) (f : α → Res β) (b : β) :
    (rbind m f).2 = Except.ok b ↔
      ∃ a, m.2 = Except.ok a ∧ (f a).2 = Except.ok b := by
  rcases m with ⟨l, r⟩
  cases r with
  | error e =>
      simp [rbind]
  | ok a =>
      simp [rbind]

theorem normalizePpu_pos (j : JsNum) : 0 < normalizePpu j := by
  cases j with
  | fin q =>
      by_cases h : 0 < q
      · simp only [normalizePpu, if_pos h]
        exact h
      · simp [normalizePpu, h]
  | nan => simp [normalizePpu]
  | posInf => simp [normalizePpu]
  | negInf => simp [normalizePpu]

/-- The level record `exportLevels` assembles for one picked `LevelBlock:`
frame BEFORE the final `scaleLevel` call: the trimmed name, the frame's
raw width and height, the built GameObjects `gos` unscaled, and the meta
block (shared reporter references, `units := ppm`).  This is the
"unscaled level" the C3 claim speaks about. -/
def unscaledLevel (ops : RealOps) (ppm : ℚ) (level : SceneNode)
    (gos : List GameObjectData) : LevelData :=
  { name := strTrim (stripStart level.name "LevelBlock:")
    width := level.width.getD 0
    height := level.height.getD 0
    gameObjects := gos
    meta :=
      { version := "1.0.0"
        timestamp := ops.nowISO
        warningsRef := WarnRef.reporter
        statsRef := WarnRef.reporter
        units := ppm } }

theorem processLevels_scaled (ops : RealOps) (ppm : ℚ) (picked : List SceneNode)
    (lvls : List LevelData)
    (h : (processLevels ops ppm picked).2 = Except.ok lvls) :
    List.Forall₂ (fun level L => ∃ gos,
      (processGOs ops level (findGameObjects level)).2 = Except.ok gos ∧
      L = scaleLevel (unscaledLevel ops ppm level gos)
        (1 / (if ppm = 0 then 1 else ppm))) picked lvls := by
  induction picked generalizing lvls with
  | nil =>
      simp [processLevels, rok] at h
      subst h
      exact List.Forall₂.nil
  | cons level rest ih =>
      rw [processLevels] at h
      rw [rbind_ok_iff] at h
      obtain ⟨u, hu, h⟩ := h
      rw [rbind_ok_iff] at h
      obtain ⟨gos, hgos, h⟩ := h
      rw [rbind_ok_iff] at h
      obtain ⟨restLevels, hrest, h⟩ := h
      simp [rok] at h
      subst h
      exact List.Forall₂.cons
        ⟨gos, hgos, by rw [one_div, unscaledLevel]⟩
        (ih restLevels hrest)

theorem forall2_map {α β : Type} (r : α → β → Prop) (f : α → β) (l : List α)
    (h : ∀ x ∈ l, r x (f x)) : List.Forall₂ r l (l.map f) := by
  induction l with
  | nil => exact List.Forall₂.nil
  | cons a t ih =>
      exact List.Forall₂.cons (h a (by simp))
        (ih (fun x hx => h x (List.mem_cons_of_mem _ hx)))

/-! ## C9: explicit-compound children and the collider statistics -/

theorem rbind_bumps_nil {α β : Type} (m : Res α) (f : α → Res β)
    (hm : m.1.bumps = []) (hf : ∀ a, (f a).1.bumps = []) :
    (rbind m f).1.bumps = [] := by
  rcases m with ⟨l, r⟩
  cases r with
  | error e => exact hm
  | ok a =>
      simp only [rbind, Log.cat]
      simp only [Log.bumps] at hm ⊢
      rw [hm, List.nil_append]
      exact hf a

mutual

theorem buildChild_no_bumps (ops : RealOps) :
    ∀ (fuel : ℕ) (child parent level : SceneNode),
      (buildChildRelativeToParent ops fuel child parent level).1.bumps = []
  | 0, child, parent, level => by
      rw [buildChildRelativeToParent]
      rfl
  | fuel + 1, child, parent, level => by
      simp only [buildChildRelativeToParent]
      repeat' first
        | rfl
        | (apply rbind_bumps_nil _ _ (buildChildList_no_bumps ops fuel _ _ _)
           intro a
           rfl)
        | (apply rbind_bumps_nil _ _ rfl
           intro a
           rfl)
        | split

theorem buildChildList_no_bumps (ops : RealOps) :
    ∀ (fuel : ℕ) (cs : List SceneNode) (parent level : SceneNode),
      (buildChildList ops fuel cs parent level).1.bumps = []
  | _, [], _, _ => by
      rw [buildChildList]
      rfl
  | fuel, c :: rest, parent, level => by
      rw [buildChildList]
      apply rbind_bumps_nil _ _ (buildChild_no_bumps ops fuel c parent level)
      intro o
      apply rbind_bumps_nil _ _ (buildChildList_no_bumps ops fuel rest parent level)
      intro os
      rfl

end

theorem rbind_bumps_ok {α β : Type} (m : Res α) (f : α → Res β) (b : β)
    (h : (rbind m f).2 = Except.ok b) :
    ∃ a, m.2 = Except.ok a ∧ (f a).2 = Except.ok b ∧
      (rbind m f).1.bumps = m.1.bumps ++ (f a).1.bumps := by
  rcases m with ⟨l, r⟩
  cases r with
  | error e => simp [rbind] at h
  | ok a =>
      refine ⟨a, rfl, ?_, ?_⟩
      · simpa [rbind] using h
      · simp [rbind, Log.cat]

theorem compound_branch_bumps (ops : RealOps) (node go level : SceneNode)
    (anchor : Vec2) (c : Option ColliderData)
    (h1 : strStarts node.name "Collider:" = true)
    (h2 : strTrim (stripStart node.name "Collider:") = "Compound")
    (h3 : node.isContainer = true)
    (hok : (buildSingleCollider ops node go level anchor).2 = Except.ok c) :
    (buildSingleCollider ops node go level anchor).1.bumps = ["Compound"] := by
  have hexp : buildSingleCollider ops node go level anchor =
      rbind (if (collectColliderDescendants node).length = 0 then
          rwarn (node.name ++ " has no Collider:* descendants.")
        else rok ()) fun _ =>
      rbind (buildChildList ops (nodeFuel node) (collectColliderDescendants node)
          node level) fun built =>
      rbind (rbump "Compound") fun _ =>
      rok (some (ColliderData.Compound (localOffsetToAnchor node anchor level)
        (getNodeRotation ops node - getNodeRotation ops go)
        (built.filterMap id))) := by
    simp only [buildSingleCollider]
    rw [h1, h2, h3]
    rw [if_neg (show ¬ (¬ true = true) by simp)]
    rw [if_neg (show ("Compound" : String) ≠ "Cuboid" by decide)]
    rw [if_neg (show ("Compound" : String) ≠ "Ball" by decide)]
    rw [if_neg (show ("Compound" : String) ≠ "Convex" by decide)]
    rw [if_neg (show ("Compound" : String) ≠ "Trimesh" by decide)]
    rw [if_neg (show ("Compound" : String) ≠ "Polyline" by decide)]
    rw [if_pos rfl]
    rw [if_neg (show ¬ (¬ true = true) by simp)]
  rw [hexp] at hok ⊢
  obtain ⟨u, hu, hok2, he1⟩ := rbind_bumps_ok _ _ _ hok
  obtain ⟨built, hbuilt, hok3, he2⟩ := rbind_bumps_ok _ _ _ hok2
  rw [he1, he2, buildChildList_no_bumps]
  have hm1 : (if (collectColliderDescendants node).length = 0 then
      rwarn (node.name ++ " has no Collider:* descendants.")
    else rok ()).1.bumps = ([] : List String) := by
    split <;> rfl
  rw [hm1]
  rfl

/-- C9.  Colliders built through `buildChildRelativeToParent` (the
children of an explicit `Collider:Compound`, builders.ts:230) never bump
any entry of `stats.colliders`, at any nesting depth; and a successful
explicit-`Compound` build of `buildSingleCollider` bumps exactly the
`Compound` entry once - so the per-kind counts reflect only object-level
colliders and the implicit compound, never the nested children. -/
theorem C9_nested_children_uncounted :
    (∀ (ops : RealOps) (fuel : ℕ) (child parent level : SceneNode) (kind : String),
      Log.colliderCount (buildChildRelativeToParent ops fuel child parent level).1
        kind = 0) ∧
    (∀ (ops : RealOps) (node go level : SceneNode) (anchor : Vec2)
        (c : Option ColliderData),
      strStarts node.name "Collider:" = true →
      strTrim (stripStart node.name "Collider:") = "Compound" →
      node.isContainer = true →
      (buildSingleCollider ops node go level anchor).2 = Except.ok c →
      ∀ kind, Log.colliderCount (buildSingleCollider ops node go level anchor).1
        kind = (if kind = "Compound" then 1 else 0)) := by
  constructor
  · intro ops fuel child parent level kind
    unfold Log.colliderCount
    rw [buildChild_no_bumps]
    rfl
  · intro ops node go level anchor c h1 h2 h3 hok kind
    unfold Log.colliderCount
    rw [compound_branch_bumps ops node go level anchor c h1 h2 h3 hok]
    by_cases h : kind = "Compound"
    · subst h
      simp
    · rw [if_neg h]
      simp [List.count_cons]
      intro hcontra
      exact absurd hcontra.symm h

/-! ## C4: multiple collider children wrap in an implicit Compound -/

/-- Scenario B of the spec: a `Collider:Ball` and a `Collider:Cuboid`
sibling under one GameObject group inside one level block (all transforms
translation-only). -/
def ballNodeB : SceneNode :=
  SceneNode.mk "Collider:Ball" NodeType.RECTANGLE (some 50) (some 50)
    ⟨1, 0, 100, 0, 1, 100⟩ [] false []

def cubNodeB : SceneNode :=
  SceneNode.mk "Collider:Cuboid" NodeType.RECTANGLE (some 100) (some 100)
    ⟨1, 0, 300, 0, 1, 200⟩ [] false []

def goNodeB : SceneNode :=
  SceneNode.mk "GameObject:Box2" NodeType.GROUP (some 200) (some 200)
    ⟨1, 0, 100, 0, 1, 100⟩ [] true [ballNodeB, cubNodeB]

def levelNodeB : SceneNode :=
  SceneNode.mk "LevelBlock:Main" NodeType.FRAME (some 1000) (some 1000)
    ⟨1, 0, 0, 0, 1, 0⟩ [] true [goNodeB]

theorem evalB_gw_ball : getWorldPolygonVertices qOps ballNodeB =
    Except.ok [((100 : ℚ), (100 : ℚ)), (150, 100), (150, 150), (100, 150)] := by
  simp only [getWorldPolygonVertices, ballNodeB, SceneNode.vectorPaths,
    SceneNode.ntype, SceneNode.transform, SceneNode.width, SceneNode.height]
  norm_num [applyToPoint]

theorem evalB_gw_cub : getWorldPolygonVertices qOps cubNodeB =
    Except.ok [((300 : ℚ), (200 : ℚ)), (400, 200), (400, 300), (300, 300)] := by
  simp only [getWorldPolygonVertices, cubNodeB, SceneNode.vectorPaths,
    SceneNode.ntype, SceneNode.transform, SceneNode.width, SceneNode.height]
  norm_num [applyToPoint]

theorem evalB_anchor : computeRigidBodyCenter qOps goNodeB levelNodeB =
    Except.ok ((-250 : ℚ), (300 : ℚ)) := by
  have hn1 : ballNodeB.name = "Collider:Ball" := rfl
  have hn2 : cubNodeB.name = "Collider:Cuboid" := rfl
  have hfil : (List.filter (fun n => strStarts (strTrim n.name) "Collider:")
      [ballNodeB, cubNodeB]) = [ballNodeB, cubNodeB] := by
    simp only [List.filter, hn1, hn2]
    rw [show strStarts (strTrim "Collider:Ball") "Collider:" = true by decide]
    rw [show strStarts (strTrim "Collider:Cuboid") "Collider:" = true by decide]
  have ht1 : testCompoundName ballNodeB.name = false := by rw [hn1]; decide
  have ht2 : testCompoundName cubNodeB.name = false := by rw [hn2]; decide
  have hlt : levelNodeB.transform = ⟨1, 0, 0, 0, 1, 0⟩ := rfl
  have hlw : levelNodeB.width = some 1000 := rfl
  have hlh : levelNodeB.height = some 1000 := rfl
  have hgoch : goNodeB.children = [ballNodeB, cubNodeB] := rfl
  simp only [computeRigidBodyCenter, hgoch, hfil]
  norm_num [ht1, ht2, colliderWorldPointsRapier, evalB_gw_ball, evalB_gw_cub,
    Except.bind, bind, toRapierFromFigmaWorld, figmaWorldToLevelLocal,
    tlToCenterYUp, hlt, hlw, hlh, aabbCenter, minQ, maxQ]

theorem evalB_ball :
    buildSingleCollider qOps ballNodeB goNodeB levelNodeB (-250, 300) =
      (⟨[], ["Ball"]⟩, Except.ok (some (ColliderData.Ball (-125, 75) 0 25))) := by
  have hn1 : ballNodeB.name = "Collider:Ball" := rfl
  have hw : ballNodeB.width = some 50 := rfl
  have hh : ballNodeB.height = some 50 := rfl
  simp only [buildSingleCollider, hn1, hw, hh]
  rw [show strStarts "Collider:Ball" "Collider:" = true by decide]
  rw [show strTrim (stripStart "Collider:Ball" "Collider:") = "Ball" by decide]
  rw [if_neg (show ¬ (¬ true = true) by simp)]
  rw [if_neg (show ("Ball" : String) ≠ "Cuboid" by decide)]
  rw [if_pos rfl]
  norm_num [localOffsetToAnchor, getPositionWithAnchorAdjustment,
    getNodeCenterInWorld, getNodeRotation, getRotationFromMatrix,
    toRapierFromFigmaWorld, figmaWorldToLevelLocal, tlToCenterYUp, applyToPoint,
    subV, qOps, ballNodeB, goNodeB, levelNodeB, SceneNode.transform,
    SceneNode.width, SceneNode.height, rbind, rbump, rok, Log.cat, Log.nil]

theorem evalB_cub :
    buildSingleCollider qOps cubNodeB goNodeB levelNodeB (-250, 300) =
      (⟨[], ["Cuboid"]⟩,
        Except.ok (some (ColliderData.Cuboid (100, -50) 0 (100, 100)))) := by
  have hn2 : cubNodeB.name = "Collider:Cuboid" := rfl
  have hw : cubNodeB.width = some 100 := rfl
  have hh : cubNodeB.height = some 100 := rfl
  simp only [buildSingleCollider, hn2, hw, hh]
  rw [show strStarts "Collider:Cuboid" "Collider:" = true by decide]
  rw [show strTrim (stripStart "Collider:Cuboid" "Collider:") = "Cuboid" by decide]
  rw [if_neg (show ¬ (¬ true = true) by simp)]
  rw [if_pos rfl]
  norm_num [localOffsetToAnchor, getPositionWithAnchorAdjustment,
    getNodeCenterInWorld, getNodeRotation, getRotationFromMatrix,
    toRapierFromFigmaWorld, figmaWorldToLevelLocal, tlToCenterYUp, applyToPoint,
    subV, qOps, cubNodeB, goNodeB, levelNodeB, SceneNode.transform,
    SceneNode.width, SceneNode.height, rbind, rbump, rok, Log.cat, Log.nil]

theorem evalB_collider :
    buildCollider qOps goNodeB levelNodeB (-250, 300) =
      (⟨[], ["Ball", "Cuboid", "Compound"]⟩,
        Except.ok (some (ColliderData.Compound (0, 0) 0
          [ColliderData.Ball (-125, 75) 0 25,
           ColliderData.Cuboid (100, -50) 0 (100, 100)]))) := by
  have hn1 : ballNodeB.name = "Collider:Ball" := rfl
  have hn2 : cubNodeB.name = "Collider:Cuboid" := rfl
  have hgoch : goNodeB.children = [ballNodeB, cubNodeB] := rfl
  have hfil : (List.filter (fun n => strStarts n.name "Collider:")
      [ballNodeB, cubNodeB]) = [ballNodeB, cubNodeB] := by
    simp only [List.filter, hn1, hn2]
    rw [show strStarts "Collider:Ball" "Collider:" = true by decide]
    rw [show strStarts "Collider:Cuboid" "Collider:" = true by decide]
  simp only [buildCollider, hgoch, hfil]
  simp [buildSingleList, evalB_ball, evalB_cub, rbind, rbump, rok, Log.cat, Log.nil]

theorem evalB_go :
    buildGameObject qOps goNodeB levelNodeB =
      (⟨[], ["Ball", "Cuboid", "Compound"]⟩, Except.ok
        { name := "Box2"
          position := (-250, 300)
          rotation := 0
          collider := some (ColliderData.Compound (0, 0) 0
            [ColliderData.Ball (-125, 75) 0 25,
             ColliderData.Cuboid (100, -50) 0 (100, 100)])
          bodyType := BodyType.Static
          customParams := [] }) := by
  have hgoname : goNodeB.name = "GameObject:Box2" := rfl
  have hgoch : goNodeB.children = [ballNodeB, cubNodeB] := rfl
  have hbt : findBodyType [ballNodeB, cubNodeB] = none := by
    simp [findBodyType, ballNodeB, cubNodeB, SceneNode.ntype, SceneNode.name]
  have hcp : findCustomParams [ballNodeB, cubNodeB] = [] := by
    simp [findCustomParams, ballNodeB, cubNodeB, SceneNode.ntype, SceneNode.name]
  have hrot : getNodeRotation qOps goNodeB = 0 := by
    norm_num [getNodeRotation, getRotationFromMatrix, qOps, goNodeB,
      SceneNode.transform]
  simp only [buildGameObject, hgoname, hgoch, hbt, hcp, hrot]
  rw [show strTrim (stripStart "GameObject:Box2" "GameObject:") = "Box2" by decide]
  simp only [evalB_anchor, rlift, rbind, evalB_collider, rok, Log.cat, Log.nil]
  simp

/-- C4.  Two or more `Collider:*` direct children: whenever
`buildCollider` (builders.ts:50) returns a collider at all, it is a
single `Compound` at position `[0,0]`, rotation 0, whose children are
exactly the successfully built colliders of those child nodes in child
order; and on the concrete scenario B the built object carries one
`Compound` with exactly the Ball and the Cuboid as children, the
collider statistics count `Compound`, `Ball` and `Cuboid` once each, and
no warning is emitted. -/
theorem C4_implicit_compound :
    (∀ (ops : RealOps) (go level : SceneNode) (anchor : Vec2)
        (c : Option ColliderData),
      2 ≤ (go.children.filter (fun n => strStarts n.name "Collider:")).length →
      (buildCollider ops go level anchor).2 = Except.ok c →
      ∃ built,
        (buildSingleList ops
          (go.children.filter (fun n => strStarts n.name "Collider:"))
          go level anchor).2 = Except.ok built ∧
        c = some (ColliderData.Compound (0, 0) 0 (built.filterMap id))) ∧
    ((buildGameObject qOps goNodeB levelNodeB).2 = Except.ok
      { name := "Box2"
        position := (-250, 300)
        rotation := 0
        collider := some (ColliderData.Compound (0, 0) 0
          [ColliderData.Ball (-125, 75) 0 25,
           ColliderData.Cuboid (100, -50) 0 (100, 100)])
        bodyType := BodyType.Static
        customParams := [] } ∧
    (buildGameObject qOps goNodeB levelNodeB).1.warnings = [] ∧
    Log.colliderCount (buildGameObject qOps goNodeB levelNodeB).1 "Compound" = 1 ∧
    Log.colliderCount (buildGameObject qOps goNodeB levelNodeB).1 "Ball" = 1 ∧
    Log.colliderCount (buildGameObject qOps goNodeB levelNodeB).1 "Cuboid" = 1) := by
  constructor
  · intro ops go level anchor c h2 hok
    cases hcol : go.children.filter (fun n => strStarts n.name "Collider:") with
    | nil =>
        rw [hcol] at h2
        simp at h2
    | cons a t =>
        cases t with
        | nil =>
            rw [hcol] at h2
            simp at h2
        | cons b t2 =>
            have hexp : buildCollider ops go level anchor =
                rbind (buildSingleList ops (a :: b :: t2) go level anchor)
                  (fun built =>
                    rbind (rbump "Compound") fun _ =>
                    rok (some (ColliderData.Compound (0, 0) 0
                      (built.filterMap id)))) := by
              unfold buildCollider
              rw [hcol]
            rw [hexp] at hok
            obtain ⟨built, hbuilt, hok2, _⟩ := rbind_bumps_ok _ _ _ hok
            refine ⟨built, ?_, ?_⟩
            · exact hbuilt
            · have h3 := hok2
              simp [rbind, rbump, rok] at h3
              exact h3.symm
  · rw [evalB_go]
    refine ⟨rfl, rfl, ?_, ?_, ?_⟩ <;> decide

/-- C4 witness: the universal conjunct of `C4_implicit_compound` applied
to scenario B itself (two collider children, build succeeds). -/
theorem C4_implicit_compound_witness :
    ∃ built,
      (buildSingleList qOps
        (goNodeB.children.filter (fun n => strStarts n.name "Collider:"))
        goNodeB levelNodeB (-250, 300)).2 = Except.ok built ∧
      some (ColliderData.Compound (0, 0) 0
        [ColliderData.Ball (-125, 75) 0 25,
         ColliderData.Cuboid (100, -50) 0 (100, 100)]) =
        some (ColliderData.Compound (0, 0) 0 (built.filterMap id)) := by
  apply C4_implicit_compound.1 qOps goNodeB levelNodeB (-250, 300)
  · have hn1 : ballNodeB.name = "Collider:Ball" := rfl
    have hn2 : cubNodeB.name = "Collider:Cuboid" := rfl
    have hgoch : goNodeB.children = [ballNodeB, cubNodeB] := rfl
    rw [hgoch]
    simp only [List.filter, hn1, hn2]
    rw [show strStarts "Collider:Ball" "Collider:" = true by decide]
    rw [show strStarts "Collider:Cuboid" "Collider:" = true by decide]
    decide
  · rw [evalB_collider]

/-! ## C1: per-object failure containment -/

/-- The failing scene of the C1 counterexample: a GameObject whose only
collider node is a TEXT node (no vector paths, no rectangle fallback), so
building its geometry throws. -/
def textColliderNode : SceneNode :=
  SceneNode.mk "Collider:Convex" NodeType.TEXT none none
    ⟨1, 0, 0, 0, 1, 0⟩ [] false []

def goNodeFail : SceneNode :=
  SceneNode.mk "GameObject:Broken" NodeType.GROUP (some 10) (some 10)
    ⟨1, 0, 0, 0, 1, 0⟩ [] true [textColliderNode]

def levelNodeFail : SceneNode :=
  SceneNode.mk "LevelBlock:L1" NodeType.FRAME (some 100) (some 100)
    ⟨1, 0, 0, 0, 1, 0⟩ [] true [goNodeFail]

def pageFail : Page := ⟨[levelNodeFail], []⟩

theorem evalFail_gw : getWorldPolygonVertices qOps textColliderNode =
    Except.error "Unsupported vector source for node type TEXT" := by
  simp only [getWorldPolygonVertices, textColliderNode, SceneNode.vectorPaths,
    SceneNode.ntype, nodeTypeName]
  rw [if_neg (show ¬ (([] : List (List PathTok)) ≠ []) by simp)]
  rw [if_neg (show ¬ (NodeType.TEXT = NodeType.RECTANGLE ∨
    NodeType.TEXT = NodeType.FRAME ∨ NodeType.TEXT = NodeType.GROUP) by decide)]
  rw [if_neg (show ¬ (NodeType.TEXT = NodeType.ELLIPSE) by decide)]
  rfl

theorem evalFail_anchor : computeRigidBodyCenter qOps goNodeFail levelNodeFail =
    Except.error "Unsupported vector source for node type TEXT" := by
  have hn : textColliderNode.name = "Collider:Convex" := rfl
  have hfil : (List.filter (fun n => strStarts (strTrim n.name) "Collider:")
      [textColliderNode]) = [textColliderNode] := by
    simp only [List.filter, hn]
    rw [show strStarts (strTrim "Collider:Convex") "Collider:" = true by decide]
  have ht : testCompoundName textColliderNode.name = false := by
    rw [hn]; decide
  have hgoch : goNodeFail.children = [textColliderNode] := rfl
  simp only [computeRigidBodyCenter, hgoch, hfil]
  norm_num [ht, colliderWorldPointsRapier, evalFail_gw, Except.bind, bind]

theorem evalFail_go_error : (buildGameObject qOps goNodeFail levelNodeFail).2 =
    Except.error "Unsupported vector source for node type TEXT" := by
  simp only [buildGameObject, evalFail_anchor, rlift, rbind]


theorem processGOs_ok (ops : RealOps) (level : SceneNode) (gos : List SceneNode) :
    (processGOs ops level gos).2 = Except.ok
      (gos.filterMap (fun go => ((buildGameObject ops go level).2).toOption)) := by
  induction gos with
  | nil => rfl
  | cons go rest ih =>
      rw [processGOs]
      rcases hb : buildGameObject ops go level with ⟨lg, r⟩
      cases r with
      | ok g =>
          simp only [List.filterMap_cons, hb, Except.toOption]
          rw [ih]
          rfl
      | error e =>
          simp only [List.filterMap_cons, hb, Except.toOption]
          exact ih

theorem rbind_snd_ok {α β : Type} {m : Res α} {f : α → Res β} {a : α}
    (h : m.2 = Except.ok a) : (rbind m f).2 = (f a).2 := by
  rcases m with ⟨l, r⟩
  cases r with
  | error e => simp at h
  | ok b =>
      have hb : b = a := by
        simpa using h
      subst hb
      simp [rbind]

theorem processLevels_ok (ops : RealOps) (ppm : ℚ) (picked : List SceneNode) :
    ∃ lvls, (processLevels ops ppm picked).2 = Except.ok lvls := by
  induction picked with
  | nil => exact ⟨[], rfl⟩
  | cons level rest ih =>
      obtain ⟨lvls, hlvls⟩ := ih
      have h1 : (if (findGameObjects level).length = 0 then
          rwarn ("Level " ++ strTrim (stripStart level.name "LevelBlock:") ++
            " has no GameObject groups.")
        else rok ()).2 = Except.ok () := by
        split <;> rfl
      rw [processLevels]
      rw [rbind_snd_ok h1, rbind_snd_ok (processGOs_ok ops level (findGameObjects level)),
        rbind_snd_ok hlvls]
      exact ⟨_, rfl⟩

/-- C1 (amended).  The per-object `try` of `exportLevels`
(scanner.ts:26-34): the whole export never fails because of one object -
each level's emitted `gameObjects` are exactly the objects whose build
succeeded, in order;  when `buildGameObject` throws, the loop records
`Failed to build GameObject <name>: <message>` as a warning and continues
with the remaining objects, and the failed object is dropped from the
level's `gameObjects` (it is not emitted with a null collider). -/
theorem C1_failure_containment :
    (∀ (ops : RealOps) (page : Page) (ppm : ℚ),
      ∃ lvls, (exportLevels ops page ppm).2 = Except.ok lvls) ∧
    (∀ (ops : RealOps) (level : SceneNode) (gos : List SceneNode),
      (processGOs ops level gos).2 = Except.ok
        (gos.filterMap (fun go => ((buildGameObject ops go level).2).toOption))) ∧
    (∀ (ops : RealOps) (level go : SceneNode) (rest : List SceneNode)
        (msg : String),
      (buildGameObject ops go level).2 = Except.error msg →
      processGOs ops level (go :: rest) =
        (((buildGameObject ops go level).1.cat
            ⟨["Failed to build GameObject " ++ go.name ++ ": " ++ msg], []⟩).cat
          (processGOs ops level rest).1,
         (processGOs ops level rest).2)) := by
  refine ⟨?_, processGOs_ok, ?_⟩
  · intro ops page ppm
    exact processLevels_ok ops ppm _
  · intro ops level go rest msg h
    rw [processGOs]
    rcases hb : buildGameObject ops go level with ⟨lg, r⟩
    cases r with
    | ok g =>
        rw [hb] at h
        simp at h
    | error e =>
        rw [hb] at h
        simp only at h
        have he : e = msg := by
          injection h
        subst he
        rfl

/-- C1 witness: the containment applied at a concrete failing object. -/
theorem C1_failure_containment_witness :
    processGOs qOps levelNodeFail [goNodeFail] =
      (((buildGameObject qOps goNodeFail levelNodeFail).1.cat
          ⟨["Failed to build GameObject GameObject:Broken: Unsupported vector source for node type TEXT"], []⟩).cat
        (processGOs qOps levelNodeFail []).1,
       (processGOs qOps levelNodeFail []).2) := by
  have h := C1_failure_containment.2.2 qOps levelNodeFail goNodeFail []
    "Unsupported vector source for node type TEXT" evalFail_go_error
  rw [show goNodeFail.name = "GameObject:Broken" from rfl] at h
  exact h

theorem evalFail_go_full : buildGameObject qOps goNodeFail levelNodeFail =
    (Log.nil, Except.error "Unsupported vector source for node type TEXT") := by
  simp only [buildGameObject, evalFail_anchor, rlift, rbind]

theorem evalFail_processGOs : processGOs qOps levelNodeFail [goNodeFail] =
    (⟨["Failed to build GameObject GameObject:Broken: Unsupported vector source for node type TEXT"], []⟩,
      Except.ok []) := by
  rw [processGOs, evalFail_go_full]
  simp only [processGOs, rok, Log.cat, Log.nil]
  rw [show goNodeFail.name = "GameObject:Broken" from rfl]
  simp

theorem evalFail_findGOs : findGameObjects levelNodeFail = [goNodeFail] := by
  simp +decide [findGameObjects, findGameObjectsAux, levelNodeFail, goNodeFail,
    textColliderNode, SceneNode.children, strStarts]

theorem evalFail_export : exportLevels qOps pageFail 1 =
    (⟨["Failed to build GameObject GameObject:Broken: Unsupported vector source for node type TEXT"], []⟩,
      Except.ok
        [{ name := "L1", width := 100, height := 100, gameObjects := []
           meta := { version := "1.0.0", timestamp := "1970-01-01T00:00:00.000Z"
                     warningsRef := WarnRef.reporter, statsRef := WarnRef.reporter
                     units := 1 } }]) := by
  have hlbs : findLevelBlocks pageFail.children = [levelNodeFail] := by
    simp +decide [pageFail, findLevelBlocks, levelNodeFail, goNodeFail,
      textColliderNode, strStarts]
  have hsel : pageFail.selection.length = 0 := rfl
  rw [exportLevels, hlbs]
  rw [if_neg (by rw [hsel]; simp)]
  rw [processLevels, evalFail_findGOs]
  rw [if_neg (by simp)]
  rw [evalFail_processGOs]
  rw [show levelNodeFail.name = "LevelBlock:L1" from rfl]
  rw [show strTrim (stripStart "LevelBlock:L1" "LevelBlock:") = "L1" by decide]
  rw [show levelNodeFail.width = some 100 from rfl]
  rw [show levelNodeFail.height = some 100 from rfl]
  rw [if_neg (show ¬ ((1 : ℚ) = 0) by norm_num)]
  rw [show (1 : ℚ) / 1 = 1 by norm_num]
  rw [processLevels]
  simp only [rbind, rok, Log.cat, Log.nil, scaleLevel_one]
  rw [show qOps.nowISO = "1970-01-01T00:00:00.000Z" from rfl]
  simp

/-- C1 (counterexample to the claim as stated).  On a level whose only
GameObject contains a TEXT collider node, building the object throws; the
export catches it, appends the warning, and still succeeds - but the
level is emitted with an empty `gameObjects` list: the failed object is
not emitted with `collider = null`, it is dropped entirely. -/
theorem C1_counterexample :
    findGameObjects levelNodeFail = [goNodeFail] ∧
    (exportLevels qOps pageFail 1).1.warnings =
      ["Failed to build GameObject GameObject:Broken: Unsupported vector source for node type TEXT"] ∧
    (exportLevels qOps pageFail 1).2 = Except.ok
      [{ name := "L1", width := 100, height := 100, gameObjects := []
         meta := { version := "1.0.0", timestamp := "1970-01-01T00:00:00.000Z"
                   warningsRef := WarnRef.reporter, statsRef := WarnRef.reporter
                   units := 1 } }] := by
  refine ⟨evalFail_findGOs, ?_, ?_⟩ <;> rw [evalFail_export]

/-! ## C10: all levels share the one reporter's warning list -/

theorem scaleLevel_meta (lvl : LevelData) (s : ℚ) :
    (scaleLevel lvl s).meta = lvl.meta := rfl

theorem processLevels_warnref (ops : RealOps) (ppm : ℚ) (picked : List SceneNode)
    (lvls : List LevelData)
    (h : (processLevels ops ppm picked).2 = Except.ok lvls) :
    ∀ L ∈ lvls, L.meta.warningsRef = WarnRef.reporter := by
  induction picked generalizing lvls with
  | nil =>
      simp [processLevels, rok] at h
      subst h
      intro L hL
      simp at hL
  | cons level rest ih =>
      rw [processLevels] at h
      rw [rbind_ok_iff] at h
      obtain ⟨u, hu, h⟩ := h
      rw [rbind_ok_iff] at h
      obtain ⟨gos, hgos, h⟩ := h
      rw [rbind_ok_iff] at h
      obtain ⟨restLevels, hrest, h⟩ := h
      simp [rok] at h
      subst h
      intro L hL
      rcases List.mem_cons.mp hL with hL | hL
      · rw [hL, scaleLevel_meta]
      · exact ih restLevels hrest L hL

/-- The two-level scene of the C10 demonstration: level A builds cleanly,
level B contains no GameObject group and therefore warns - after level A
was assembled. -/
def cubNodeC : SceneNode :=
  SceneNode.mk "Collider:Cuboid" NodeType.RECTANGLE (some 40) (some 40)
    ⟨1, 0, 10, 0, 1, 10⟩ [] false []

def goNodeC : SceneNode :=
  SceneNode.mk "GameObject:Crate" NodeType.GROUP (some 40) (some 40)
    ⟨1, 0, 10, 0, 1, 10⟩ [] true [cubNodeC]

def levelNodeC1 : SceneNode :=
  SceneNode.mk "LevelBlock:A" NodeType.FRAME (some 200) (some 200)
    ⟨1, 0, 0, 0, 1, 0⟩ [] true [goNodeC]

def levelNodeC2 : SceneNode :=
  SceneNode.mk "LevelBlock:B" NodeType.FRAME (some 200) (some 200)
    ⟨1, 0, 0, 0, 1, 0⟩ [] true []

def pageC10 : Page := ⟨[levelNodeC1, levelNodeC2], []⟩

theorem evalC_gw : getWorldPolygonVertices qOps cubNodeC =
    Except.ok [((10 : ℚ), (10 : ℚ)), (50, 10), (50, 50), (10, 50)] := by
  simp only [getWorldPolygonVertices, cubNodeC, SceneNode.vectorPaths,
    SceneNode.ntype, SceneNode.transform, SceneNode.width, SceneNode.height]
  norm_num [applyToPoint]

theorem evalC_anchor : computeRigidBodyCenter qOps goNodeC levelNodeC1 =
    Except.ok ((-70 : ℚ), (70 : ℚ)) := by
  have hn : cubNodeC.name = "Collider:Cuboid" := rfl
  have hfil : (List.filter (fun n => strStarts (strTrim n.name) "Collider:")
      [cubNodeC]) = [cubNodeC] := by
    simp only [List.filter, hn]
    rw [show strStarts (strTrim "Collider:Cuboid") "Collider:" = true by decide]
  have ht : testCompoundName cubNodeC.name = false := by rw [hn]; decide
  have hgoch : goNodeC.children = [cubNodeC] := rfl
  simp only [computeRigidBodyCenter, hgoch, hfil]
  norm_num [ht, colliderWorldPointsRapier, evalC_gw, Except.bind, bind,
    toRapierFromFigmaWorld, figmaWorldToLevelLocal, tlToCenterYUp,
    (show levelNodeC1.transform = ⟨1, 0, 0, 0, 1, 0⟩ from rfl),
    (show levelNodeC1.width = some 200 from rfl),
    (show levelNodeC1.height = some 200 from rfl), aabbCenter, minQ, maxQ]

theorem evalC_single :
    buildSingleCollider qOps cubNodeC goNodeC levelNodeC1 (-70, 70) =
      (⟨[], ["Cuboid"]⟩,
        Except.ok (some (ColliderData.Cuboid (0, 0) 0 (40, 40)))) := by
  have hn : cubNodeC.name = "Collider:Cuboid" := rfl
  have hw : cubNodeC.width = some 40 := rfl
  have hh : cubNodeC.height = some 40 := rfl
  simp only [buildSingleCollider, hn, hw, hh]
  rw [show strStarts "Collider:Cuboid" "Collider:" = true by decide]
  rw [show strTrim (stripStart "Collider:Cuboid" "Collider:") = "Cuboid" by decide]
  rw [if_neg (show ¬ (¬ true = true) by simp)]
  rw [if_pos rfl]
  norm_num [localOffsetToAnchor, getPositionWithAnchorAdjustment,
    getNodeCenterInWorld, getNodeRotation, getRotationFromMatrix,
    toRapierFromFigmaWorld, figmaWorldToLevelLocal, tlToCenterYUp, applyToPoint,
    subV, qOps, cubNodeC, goNodeC, levelNodeC1, SceneNode.transform,
    SceneNode.width, SceneNode.height, rbind, rbump, rok, Log.cat, Log.nil]

theorem evalC_go :
    buildGameObject qOps goNodeC levelNodeC1 =
      (⟨[], ["Cuboid"]⟩, Except.ok
        { name := "Crate"
          position := (-70, 70)
          rotation := 0
          collider := some (ColliderData.Cuboid (0, 0) 0 (40, 40))
          bodyType := BodyType.Static
          customParams := [] }) := by
  have hgoname : goNodeC.name = "GameObject:Crate" := rfl
  have hgoch : goNodeC.children = [cubNodeC] := rfl
  have hbt : findBodyType [cubNodeC] = none := by
    simp [findBodyType, cubNodeC, SceneNode.ntype, SceneNode.name]
  have hcp : findCustomParams [cubNodeC] = [] := by
    simp [findCustomParams, cubNodeC, SceneNode.ntype, SceneNode.name]
  have hrot : getNodeRotation qOps goNodeC = 0 := by
    norm_num [getNodeRotation, getRotationFromMatrix, qOps, goNodeC,
      SceneNode.transform]
  have hfil : (List.filter (fun n => strStarts n.name "Collider:") [cubNodeC]) =
      [cubNodeC] := by
    simp only [List.filter, (show cubNodeC.name = "Collider:Cuboid" from rfl)]
    rw [show strStarts "Collider:Cuboid" "Collider:" = true by decide]
  have hbc : buildCollider qOps goNodeC levelNodeC1 (-70, 70) =
      buildSingleCollider qOps cubNodeC goNodeC levelNodeC1 (-70, 70) := by
    simp only [buildCollider, hgoch, hfil]
  simp only [buildGameObject, hgoname, hgoch, hbt, hcp, hrot]
  rw [show strTrim (stripStart "GameObject:Crate" "GameObject:") = "Crate" by decide]
  simp only [evalC_anchor, rlift, rbind, hbc, evalC_single, rok, Log.cat, Log.nil]
  simp

theorem evalC_export : exportLevels qOps pageC10 1 =
    (⟨["Level B has no GameObject groups."], ["Cuboid"]⟩, Except.ok
      [{ name := "A", width := 200, height := 200
         gameObjects := [{ name := "Crate"
                           position := (-70, 70)
                           rotation := 0
                           collider := some (ColliderData.Cuboid (0, 0) 0 (40, 40))
                           bodyType := BodyType.Static
                           customParams := [] }]
         meta := { version := "1.0.0", timestamp := "1970-01-01T00:00:00.000Z"
                   warningsRef := WarnRef.reporter, statsRef := WarnRef.reporter
                   units := 1 } },
       { name := "B", width := 200, height := 200, gameObjects := []
         meta := { version := "1.0.0", timestamp := "1970-01-01T00:00:00.000Z"
                   warningsRef := WarnRef.reporter, statsRef := WarnRef.reporter
                   units := 1 } }]) := by
  have hlbs : findLevelBlocks pageC10.children = [levelNodeC1, levelNodeC2] := by
    simp +decide [pageC10, findLevelBlocks, levelNodeC1, levelNodeC2, goNodeC,
      cubNodeC, strStarts]
  have hgos1 : findGameObjects levelNodeC1 = [goNodeC] := by
    simp +decide [findGameObjects, findGameObjectsAux, levelNodeC1, goNodeC,
      cubNodeC, SceneNode.children, strStarts]
  have hgos2 : findGameObjects levelNodeC2 = [] := by
    simp [findGameObjects, findGameObjectsAux, levelNodeC2, SceneNode.children]
  have hpg1 : processGOs qOps levelNodeC1 [goNodeC] =
      (⟨[], ["Cuboid"]⟩, Except.ok
        [{ name := "Crate"
           position := (-70, 70)
           rotation := 0
           collider := some (ColliderData.Cuboid (0, 0) 0 (40, 40))
           bodyType := BodyType.Static
           customParams := [] }]) := by
    rw [processGOs, evalC_go]
    simp only [processGOs, rok, Log.cat, Log.nil]
    simp [Except.map]
  rw [exportLevels, hlbs]
  rw [if_neg (by simp [pageC10])]
  rw [processLevels, hgos1]
  rw [if_neg (by simp)]
  rw [hpg1]
  rw [show levelNodeC1.name = "LevelBlock:A" from rfl]
  rw [show strTrim (stripStart "LevelBlock:A" "LevelBlock:") = "A" by decide]
  rw [show levelNodeC1.width = some 200 from rfl]
  rw [show levelNodeC1.height = some 200 from rfl]
  rw [processLevels, hgos2]
  rw [if_pos (show List.length ([] : List SceneNode) = 0 from rfl)]
  rw [show levelNodeC2.name = "LevelBlock:B" from rfl]
  rw [show strTrim (stripStart "LevelBlock:B" "LevelBlock:") = "B" by decide]
  rw [show levelNodeC2.width = some 200 from rfl]
  rw [show levelNodeC2.height = some 200 from rfl]
  rw [if_neg (show ¬ ((1 : ℚ) = 0) by norm_num)]
  rw [show (1 : ℚ) / 1 = 1 by norm_num]
  rw [show qOps.nowISO = "1970-01-01T00:00:00.000Z" from rfl]
  simp only [processGOs, processLevels, rbind, rok, rwarn, Log.cat, Log.nil,
    scaleLevel_one]
  simp

/-- C10.  Every level of one export run stores the same reference to the
single reporter's warning array, so after the run each level's
`meta.warnings` resolves to the full warning list of the whole run; in
the two-level demonstration, level A (exported first, with no warning of
its own) sees the warning produced while processing level B. -/
theorem C10_shared_warnings :
    (∀ (ops : RealOps) (page : Page) (ppm : ℚ) (lvls : List LevelData),
      (exportLevels ops page ppm).2 = Except.ok lvls →
      ∀ L ∈ lvls, L.meta.warningsRef = WarnRef.reporter ∧
        resolveWarnings (exportLevels ops page ppm).1 L.meta.warningsRef =
          (exportLevels ops page ppm).1.warnings) ∧
    ((exportLevels qOps pageC10 1).1.warnings =
      ["Level B has no GameObject groups."] ∧
     ∃ L1 L2, (exportLevels qOps pageC10 1).2 = Except.ok [L1, L2] ∧
       L1.name = "A" ∧ L1.gameObjects.length = 1 ∧
       resolveWarnings (exportLevels qOps pageC10 1).1 L1.meta.warningsRef =
         ["Level B has no GameObject groups."]) := by
  constructor
  · intro ops page ppm lvls h L hL
    have href := processLevels_warnref ops _ _ lvls h L hL
    exact ⟨href, by rw [href]; rfl⟩
  · rw [evalC_export]
    exact ⟨rfl, _, _, rfl, rfl, rfl, rfl⟩


/-! ## C8: contour selection in getWorldPolygonVertices -/

theorem mem_insertDescBy {α : Type} (key : α → ℚ) (x : α) (l : List α) (y : α) :
    y ∈ insertDescBy key x l ↔ y = x ∨ y ∈ l := by
  induction l with
  | nil => simp [insertDescBy]
  | cons a t ih =>
      rw [insertDescBy]
      split_ifs with h
      · simp [List.mem_cons]
      · simp only [List.mem_cons, ih]
        tauto

theorem insertDescBy_length {α : Type} (key : α → ℚ) (x : α) (l : List α) :
    (insertDescBy key x l).length = l.length + 1 := by
  induction l with
  | nil => rfl
  | cons a t ih =>
      rw [insertDescBy]
      split_ifs <;> simp [List.length_cons, ih]

theorem insertDescBy_headMax {α : Type} (key : α → ℚ) (x : α) (l : List α) (d : α)
    (h : ∀ y ∈ l, key y ≤ key (l.headD d)) :
    ∀ y ∈ insertDescBy key x l, key y ≤ key ((insertDescBy key x l).headD d) := by
  cases l with
  | nil =>
      intro y hy
      simp [insertDescBy] at hy ⊢
      rw [hy]
  | cons a t =>
      rw [insertDescBy]
      split_ifs with hk
      · intro y hy
        rw [List.headD_cons]
        rcases List.mem_cons.mp hy with rfl | hy
        · exact le_refl _
        · have hy2 := h y hy
          rw [List.headD_cons] at hy2
          exact hy2.trans hk.le
      · intro y hy
        rw [List.headD_cons]
        rcases List.mem_cons.mp hy with rfl | hy
        · exact le_refl _
        · rcases (mem_insertDescBy key x t y).mp hy with rfl | hy
          · exact le_of_not_lt hk
          · have hy2 := h y (List.mem_cons_of_mem a hy)
            rw [List.headD_cons] at hy2
            exact hy2

theorem foldl_insertDescBy_mem {α : Type} (key : α → ℚ) (l : List α) :
    ∀ (acc : List α) (y : α),
      y ∈ l.foldl (fun acc x => insertDescBy key x acc) acc ↔ y ∈ l ∨ y ∈ acc := by
  induction l with
  | nil => intro acc y; simp
  | cons a t ih =>
      intro acc y
      simp only [List.foldl_cons, ih, mem_insertDescBy, List.mem_cons]
      tauto

theorem foldl_insertDescBy_length {α : Type} (key : α → ℚ) (l : List α) :
    ∀ acc : List α,
      (l.foldl (fun acc x => insertDescBy key x acc) acc).length =
        acc.length + l.length := by
  induction l with
  | nil => intro acc; simp
  | cons a t ih =>
      intro acc
      simp only [List.foldl_cons, ih, insertDescBy_length, List.length_cons]
      omega

theorem foldl_insertDescBy_headMax {α : Type} (key : α → ℚ) (l : List α) (d : α) :
    ∀ acc : List α, (∀ y ∈ acc, key y ≤ key (acc.headD d)) →
      ∀ y ∈ l.foldl (fun acc x => insertDescBy key x acc) acc,
        key y ≤ key ((l.foldl (fun acc x => insertDescBy key x acc) acc).headD d) := by
  induction l with
  | nil => intro acc h; simpa using h
  | cons a t ih =>
      intro acc h
      simp only [List.foldl_cons]
      exact ih _ (insertDescBy_headMax key a acc d h)

theorem sortDescBy_mem {α : Type} (key : α → ℚ) (l : List α) (y : α) :
    y ∈ sortDescBy key l ↔ y ∈ l := by
  rw [sortDescBy, foldl_insertDescBy_mem]
  simp

theorem sortDescBy_length {α : Type} (key : α → ℚ) (l : List α) :
    (sortDescBy key l).length = l.length := by
  rw [sortDescBy, foldl_insertDescBy_length]
  simp

theorem sortDescBy_headMax {α : Type} (key : α → ℚ) (l : List α) (d : α) :
    ∀ y ∈ sortDescBy key l, key y ≤ key ((sortDescBy key l).headD d) := by
  rw [sortDescBy]
  exact foldl_insertDescBy_headMax key l d [] (by simp)

theorem headD_mem' {α : Type} (l : List α) (d : α) (h : l ≠ []) : l.headD d ∈ l := by
  cases l with
  | nil => exact absurd rfl h
  | cons a t => simp

/-- The path data `"M 0 0 L 5 0 Z M 10 10"` as a token stream: one
contour closed by `Z` after two line points, then a bare `M` starting a
second contour that never receives another point. -/
def toksC8 : List PathTok :=
  [.cmd 'M', .num 0, .num 0, .cmd 'L', .num 5, .num 0, .cmd 'Z',
   .cmd 'M', .num 10, .num 10]

/-- A VECTOR node (identity transform) carrying that single path. -/
def vecNodeC8 : SceneNode :=
  SceneNode.mk "Collider:Polyline" NodeType.VECTOR (some 10) (some 10)
    ⟨1, 0, 0, 0, 1, 0⟩ [toksC8] false []

/-- The contours `flattenSVGPath` produces for `toksC8`: a closed
two-point contour and an open one-point contour. -/
def csC8 : List Contour :=
  [⟨[((0 : ℚ), (0 : ℚ)), (5, 0)], true⟩, ⟨[((10 : ℚ), (10 : ℚ))], false⟩]

theorem nat_sqrt_25 : Nat.sqrt 25 = 5 := by
  rw [show (25 : ℕ) = 5 * 5 from rfl, Nat.sqrt_eq]

theorem qSqrt_zero : qSqrt 0 = 0 := by
  rw [qSqrt, if_pos le_rfl]

theorem qSqrt_25 : qSqrt 25 = 5 := by
  rw [qSqrt, if_neg (by norm_num)]
  norm_num [Rat.num_ofNat, Rat.den_ofNat,
    (show Int.toNat 25 = 25 from rfl), nat_sqrt_25, Nat.sqrt_one]

set_option maxHeartbeats 1000000 in
theorem evalC8_run :
    runPath qOps (3 / 4) (3 / 4) 10 10 toksC8 ⟨(0, 0), (0, 0), none, none, []⟩ =
      ⟨(10, 10), (10, 10), none, some [((10 : ℚ), (10 : ℚ))],
        [⟨[((0 : ℚ), (0 : ℚ)), (5, 0), (0, 0)], true⟩]⟩ := rfl

theorem evalC8_flatten :
    flattenSVGPath qOps (3 / 4) (3 / 4) 10 toksC8 = csC8 := by
  rw [flattenSVGPath]
  rw [show toksC8.length = 10 from rfl]
  rw [evalC8_run]
  norm_num [csC8, dedupeClose, dedupeGo, hypotQ, qSqrt_zero, qSqrt_25, qOps]

theorem evalC8_dedupe :
    dedupeClose qSqrt [((0 : ℚ), (0 : ℚ)), (5, 0)] = [((0 : ℚ), (0 : ℚ)), (5, 0)] := by
  norm_num [dedupeClose, dedupeGo, hypotQ, qSqrt_25, qSqrt_zero]

theorem evalC8_sort :
    sortDescBy (fun c => ((c.pts.length : ℚ))) csC8 = csC8 := by
  norm_num [sortDescBy, insertDescBy, csC8]

theorem evalC8_gw :
    getWorldPolygonVertices qOps vecNodeC8 = Except.ok [((0 : ℚ), (0 : ℚ)), (5, 0)] := by
  have hfl : vecNodeC8.vectorPaths.flatMap (flattenSVGPath qOps (3 / 4) (3 / 4) 10) =
      csC8 := by
    rw [show vecNodeC8.vectorPaths = [toksC8] from rfl]
    simp [evalC8_flatten]
  have hmap : csC8.map (fun c =>
      Contour.mk (c.pts.map (fun p => applyToPoint vecNodeC8.transform p.1 p.2)) c.closed) =
      csC8 := by
    norm_num [csC8, applyToPoint,
      (show vecNodeC8.transform = ⟨1, 0, 0, 0, 1, 0⟩ from rfl)]
  have hfil : csC8.filter (fun c => c.closed && decide (3 ≤ c.pts.length)) = [] := rfl
  simp only [getWorldPolygonVertices, hfl]
  rw [if_pos (show vecNodeC8.vectorPaths ≠ [] from by
    rw [show vecNodeC8.vectorPaths = [toksC8] from rfl]; simp)]
  rw [if_neg (show ¬ (csC8 = []) from by simp [csC8])]
  rw [hmap, hfil]
  rw [if_neg (show ¬ (([] : List Contour) ≠ []) from by simp)]
  rw [evalC8_sort]
  rw [show csC8.headD ⟨[], false⟩ = ⟨[((0 : ℚ), (0 : ℚ)), (5, 0)], true⟩ from rfl]
  rw [show qOps.sqrt = qSqrt from rfl]
  rw [evalC8_dedupe]

/-- C8 (amended).  For a vector source, among the world-space contours:
if some closed contour with at least 3 points exists, the function
returns (the deduplication of) a closed ≥3-point contour of maximal
bounding-box area; otherwise it returns (the deduplication of) a contour
of maximal point count among ALL contours - open and closed alike - not
merely among the open ones as the original claim stated. -/
theorem C8_contour_selection (ops : RealOps) (node : SceneNode)
    (contours worldContours closedCs : List Contour)
    (hvp : node.vectorPaths ≠ [])
    (hc : contours = node.vectorPaths.flatMap (flattenSVGPath ops (3 / 4) (3 / 4) 10))
    (hw : worldContours = contours.map (fun c =>
      Contour.mk (c.pts.map (fun p => applyToPoint node.transform p.1 p.2)) c.closed))
    (hcl : closedCs = worldContours.filter (fun c => c.closed && decide (3 ≤ c.pts.length))) :
    (closedCs ≠ [] →
      ∃ c ∈ closedCs, (∀ c2 ∈ closedCs, areaOfBBox c2.pts ≤ areaOfBBox c.pts) ∧
        getWorldPolygonVertices ops node = Except.ok (dedupeClose ops.sqrt c.pts)) ∧
    (closedCs = [] → contours ≠ [] →
      ∃ c ∈ worldContours, (∀ c2 ∈ worldContours, c2.pts.length ≤ c.pts.length) ∧
        getWorldPolygonVertices ops node = Except.ok (dedupeClose ops.sqrt c.pts)) := by
  constructor
  · intro hne
    have hcne : ¬ (contours = []) := by
      intro h0
      apply hne
      rw [hcl, hw, h0]
      rfl
    have hres : getWorldPolygonVertices ops node =
        Except.ok (dedupeClose ops.sqrt
          ((sortDescBy (fun c => areaOfBBox c.pts) closedCs).headD ⟨[], false⟩).pts) := by
      simp only [getWorldPolygonVertices]
      rw [if_pos hvp, ← hc, if_neg hcne, ← hw, ← hcl, if_pos hne]
    have hsne : sortDescBy (fun c => areaOfBBox c.pts) closedCs ≠ [] := by
      intro h0
      apply hne
      have hlen := sortDescBy_length (fun c => areaOfBBox c.pts) closedCs
      rw [h0] at hlen
      exact List.length_eq_zero.mp hlen.symm
    refine ⟨(sortDescBy (fun c => areaOfBBox c.pts) closedCs).headD ⟨[], false⟩,
      ?_, ?_, hres⟩
    · rw [← sortDescBy_mem (fun c => areaOfBBox c.pts)]
      exact headD_mem' _ _ hsne
    · intro c2 hc2
      exact sortDescBy_headMax (fun c => areaOfBBox c.pts) closedCs ⟨[], false⟩ c2
        ((sortDescBy_mem _ _ _).mpr hc2)
  · intro hclnil hcne
    have hwne : worldContours ≠ [] := by
      rw [hw]
      intro h0
      exact hcne (List.map_eq_nil_iff.mp h0)
    have hres : getWorldPolygonVertices ops node =
        Except.ok (dedupeClose ops.sqrt
          ((sortDescBy (fun c => ((c.pts.length : ℚ))) worldContours).headD
            ⟨[], false⟩).pts) := by
      simp only [getWorldPolygonVertices]
      rw [if_pos hvp, ← hc, if_neg hcne, ← hw, ← hcl]
      rw [if_neg (show ¬ (closedCs ≠ []) from fun h => h hclnil)]
    have hsne : sortDescBy (fun c => ((c.pts.length : ℚ))) worldContours ≠ [] := by
      intro h0
      apply hwne
      have hlen := sortDescBy_length (fun c => ((c.pts.length : ℚ))) worldContours
      rw [h0] at hlen
      exact List.length_eq_zero.mp hlen.symm
    refine ⟨(sortDescBy (fun c => ((c.pts.length : ℚ))) worldContours).headD ⟨[], false⟩,
      ?_, ?_, hres⟩
    · rw [← sortDescBy_mem (fun c => ((c.pts.length : ℚ)))]
      exact headD_mem' _ _ hsne
    · intro c2 hc2
      have hq := sortDescBy_headMax (fun c => ((c.pts.length : ℚ))) worldContours
        ⟨[], false⟩ c2 ((sortDescBy_mem _ _ _).mpr hc2)
      simp only at hq
      exact_mod_cast hq

/-- C8 witness: the selection theorem applied to the concrete vector node
`vecNodeC8`, whose path yields a closed 2-point contour and an open
1-point contour (so the closed filter is empty and the fallback runs). -/
theorem C8_contour_selection_witness :
    vecNodeC8.vectorPaths ≠ [] ∧
    ((([] : List Contour) ≠ [] →
       ∃ c ∈ ([] : List Contour),
         (∀ c2 ∈ ([] : List Contour), areaOfBBox c2.pts ≤ areaOfBBox c.pts) ∧
         getWorldPolygonVertices qOps vecNodeC8 =
           Except.ok (dedupeClose qOps.sqrt c.pts)) ∧
     (([] : List Contour) = [] → csC8 ≠ [] →
       ∃ c ∈ csC8, (∀ c2 ∈ csC8, c2.pts.length ≤ c.pts.length) ∧
         getWorldPolygonVertices qOps vecNodeC8 =
           Except.ok (dedupeClose qOps.sqrt c.pts))) :=
  ⟨by rw [show vecNodeC8.vectorPaths = [toksC8] from rfl]; simp,
   C8_contour_selection qOps vecNodeC8 csC8 csC8 []
     (by rw [show vecNodeC8.vectorPaths = [toksC8] from rfl]; simp)
     (by rw [show vecNodeC8.vectorPaths = [toksC8] from rfl]; simp [evalC8_flatten])
     (by norm_num [csC8, applyToPoint,
       (show vecNodeC8.transform = ⟨1, 0, 0, 0, 1, 0⟩ from rfl)])
     (by rfl)⟩

/-- C8 counterexample to the claim as stated: for the path
`"M 0 0 L 5 0 Z M 10 10"` flattening yields a closed 2-point contour and
an open 1-point contour; no closed contour has ≥ 3 points, and the only
open contour is `[(10,10)]` - yet the function returns the closed
2-point contour `[(0,0),(5,0)]` (the fallback sorts ALL contours by
length), not the longest open contour. -/
theorem C8_counterexample :
    flattenSVGPath qOps (3 / 4) (3 / 4) 10 toksC8 =
      [⟨[((0 : ℚ), (0 : ℚ)), (5, 0)], true⟩, ⟨[((10 : ℚ), (10 : ℚ))], false⟩] ∧
    csC8.filter (fun c => c.closed && decide (3 ≤ c.pts.length)) = [] ∧
    csC8.filter (fun c => !c.closed) = [⟨[((10 : ℚ), (10 : ℚ))], false⟩] ∧
    getWorldPolygonVertices qOps vecNodeC8 = Except.ok [((0 : ℚ), (0 : ℚ)), (5, 0)] ∧
    ([((0 : ℚ), (0 : ℚ)), (5, 0)] : List Vec2) ≠ [((10 : ℚ), (10 : ℚ))] :=
  ⟨by rw [evalC8_flatten]; rfl, rfl, rfl, evalC8_gw, by simp⟩

/-! ## C3: the pixels-per-unit scale, tied to the concrete export -/

theorem evalC3_export2 : exportLevels qOps pageC10 2 =
    (⟨["Level B has no GameObject groups."], ["Cuboid"]⟩, Except.ok
      [{ name := "A", width := 100, height := 100
         gameObjects := [{ name := "Crate"
                           position := (-35, 35)
                           rotation := 0
                           collider := some (ColliderData.Cuboid (0, 0) 0 (20, 20))
                           bodyType := BodyType.Static
                           customParams := [] }]
         meta := { version := "1.0.0", timestamp := "1970-01-01T00:00:00.000Z"
                   warningsRef := WarnRef.reporter, statsRef := WarnRef.reporter
                   units := 2 } },
       { name := "B", width := 100, height := 100, gameObjects := []
         meta := { version := "1.0.0", timestamp := "1970-01-01T00:00:00.000Z"
                   warningsRef := WarnRef.reporter, statsRef := WarnRef.reporter
                   units := 2 } }]) := by
  have hlbs : findLevelBlocks pageC10.children = [levelNodeC1, levelNodeC2] := by
    simp +decide [pageC10, findLevelBlocks, levelNodeC1, levelNodeC2, goNodeC,
      cubNodeC, strStarts]
  have hgos1 : findGameObjects levelNodeC1 = [goNodeC] := by
    simp +decide [findGameObjects, findGameObjectsAux, levelNodeC1, goNodeC,
      cubNodeC, SceneNode.children, strStarts]
  have hgos2 : findGameObjects levelNodeC2 = [] := by
    simp [findGameObjects, findGameObjectsAux, levelNodeC2, SceneNode.children]
  have hpg1 : processGOs qOps levelNodeC1 [goNodeC] =
      (⟨[], ["Cuboid"]⟩, Except.ok
        [{ name := "Crate"
           position := (-70, 70)
           rotation := 0
           collider := some (ColliderData.Cuboid (0, 0) 0 (40, 40))
           bodyType := BodyType.Static
           customParams := [] }]) := by
    rw [processGOs, evalC_go]
    simp only [processGOs, rok, Log.cat, Log.nil]
    simp [Except.map]
  rw [exportLevels, hlbs]
  rw [if_neg (by simp [pageC10])]
  rw [processLevels, hgos1]
  rw [if_neg (by simp)]
  rw [hpg1]
  rw [show levelNodeC1.name = "LevelBlock:A" from rfl]
  rw [show strTrim (stripStart "LevelBlock:A" "LevelBlock:") = "A" by decide]
  rw [show levelNodeC1.width = some 200 from rfl]
  rw [show levelNodeC1.height = some 200 from rfl]
  rw [processLevels, hgos2]
  rw [if_pos (show List.length ([] : List SceneNode) = 0 from rfl)]
  rw [show levelNodeC2.name = "LevelBlock:B" from rfl]
  rw [show strTrim (stripStart "LevelBlock:B" "LevelBlock:") = "B" by decide]
  rw [show levelNodeC2.width = some 200 from rfl]
  rw [show levelNodeC2.height = some 200 from rfl]
  rw [if_neg (show ¬ ((2 : ℚ) = 0) by norm_num)]
  rw [show qOps.nowISO = "1970-01-01T00:00:00.000Z" from rfl]
  simp only [processGOs, processLevels, rbind, rok, rwarn, Log.cat, Log.nil]
  norm_num [scaleLevel, svec, scaleCollider]
  simp

/-- C3.  The pixels-per-unit post-scale of the exported document: the
entry guard passes a finite positive `pixelsPerUnit` unchanged and
replaces anything else by 1; the handler hands the guarded value to the
scanner unchanged; every level the run exports is exactly the unscaled
level record assembled for the corresponding picked `LevelBlock:` frame
(raw frame width/height, the unscaled GameObject builds) passed through
`scaleLevel · (1/p)`; `scaleLevel` multiplies width, height and every
object position by `s` and rewrites every collider by the spec's scaling
relation `SpecScaled s` (compound children recursively, trimesh indices
untouched), and scaling by 1 is the identity; concretely, exporting the
two-level page with `pixelsPerUnit = 2` halves the level dimensions, the
object position and the cuboid size, and stores `units = 2`. -/
theorem C3_pixels_per_unit_scale :
    (∀ q : ℚ, 0 < q → normalizePpu (JsNum.fin q) = q) ∧
    (∀ j : JsNum, (∀ q : ℚ, j = JsNum.fin q → ¬ 0 < q) → normalizePpu j = 1) ∧
    (∀ (ops : RealOps) (page : Page) (j : JsNum),
      handleExport ops page j = exportLevels ops page (normalizePpu j)) ∧
    (∀ (ops : RealOps) (page : Page) (j : JsNum) (lvls : List LevelData),
      (handleExport ops page j).2 = Except.ok lvls →
      List.Forall₂ (fun level L => ∃ gos,
          (processGOs ops level (findGameObjects level)).2 = Except.ok gos ∧
          L = scaleLevel (unscaledLevel ops (normalizePpu j) level gos)
            (1 / normalizePpu j))
        (if page.selection.length ≠ 0 then
          page.selection.filter (fun n => strStarts n.name "LevelBlock:")
        else findLevelBlocks page.children)
        lvls) ∧
    (∀ (lvl : LevelData) (s : ℚ),
      (scaleLevel lvl s).width = lvl.width * s ∧
      (scaleLevel lvl s).height = lvl.height * s ∧
      List.Forall₂ (fun go go2 =>
          go2.position = (go.position.1 * s, go.position.2 * s) ∧
          go2.rotation = go.rotation ∧ go2.name = go.name ∧
          Option.Rel (SpecScaled s) go.collider go2.collider)
        lvl.gameObjects (scaleLevel lvl s).gameObjects) ∧
    (∀ lvl : LevelData, scaleLevel lvl 1 = lvl) ∧
    (exportLevels qOps pageC10 2).2 = Except.ok
      [{ name := "A", width := 100, height := 100
         gameObjects := [{ name := "Crate"
                           position := (-35, 35)
                           rotation := 0
                           collider := some (ColliderData.Cuboid (0, 0) 0 (20, 20))
                           bodyType := BodyType.Static
                           customParams := [] }]
         meta := { version := "1.0.0", timestamp := "1970-01-01T00:00:00.000Z"
                   warningsRef := WarnRef.reporter, statsRef := WarnRef.reporter
                   units := 2 } },
       { name := "B", width := 100, height := 100, gameObjects := []
         meta := { version := "1.0.0", timestamp := "1970-01-01T00:00:00.000Z"
                   warningsRef := WarnRef.reporter, statsRef := WarnRef.reporter
                   units := 2 } }] := by
  refine ⟨?_, ?_, fun ops page j => rfl, ?_, ?_, scaleLevel_one, ?_⟩
  · intro q hq
    simp [normalizePpu, hq]
  · intro j hj
    cases j with
    | fin q =>
        have := hj q rfl
        simp [normalizePpu, this]
    | nan => rfl
    | posInf => rfl
    | negInf => rfl
  · intro ops page j lvls h
    have hppm : (if normalizePpu j = 0 then 1 else normalizePpu j) = normalizePpu j := by
      have := normalizePpu_pos j
      rw [if_neg (by linarith)]
    have h2 : (processLevels ops (normalizePpu j)
        (if page.selection.length ≠ 0 then
          page.selection.filter (fun n => strStarts n.name "LevelBlock:")
        else findLevelBlocks page.children)).2 = Except.ok lvls := h
    have h3 := processLevels_scaled ops (normalizePpu j) _ lvls h2
    rw [hppm] at h3
    exact h3
  · intro lvl s
    refine ⟨rfl, rfl, ?_⟩
    have hgo : (scaleLevel lvl s).gameObjects = lvl.gameObjects.map (fun go =>
        { go with
            position := svec go.position s
            collider := go.collider.map (fun c => scaleCollider c s) }) := rfl
    rw [hgo]
    apply forall2_map
    intro go _
    refine ⟨rfl, rfl, rfl, ?_⟩
    cases hc : go.collider with
    | none => simp [hc]; exact Option.Rel.none
    | some c =>
        simp [hc]
        exact Option.Rel.some (specScaled_scaleCollider s c)
  · rw [evalC3_export2]
